import Mathlib

/-!
Verification development for the RunLights repository.

The repository bridges a game-launcher event ("console selected") to WLED
controller updates via a Windows named-pipe IPC channel.  This file gives a
shallow embedding of the Python modules `runlights/config.py`,
`runlights/wled.py`, `runlights/ipc.py`, `runlights/cli.py` and
`runlights/tray.py`, and proves properties of that embedding.

Python dynamic values (parsed JSON messages, TOML scalars, binding dicts)
are represented by the inductive type `Json` below.  Configuration tables
are represented by structures whose fields correspond exactly to the keys
the Python code reads with `.get`; a field of type `Option Json` is `none`
when the key is absent.  Fallible Python code is embedded with
`Except String`: an `Except.error` value stands for an uncaught Python
exception carrying the exception's message, which is how crashes of the
server loop are distinguished from structured error returns.
-/

/-- Dynamic value: a parsed JSON document or a TOML scalar/array/table.
Numbers are modelled as integers (the repository only manipulates integral
segment ids, ports and brightness values). -/
inductive Json where
  | null : Json
  | bool (b : Bool) : Json
  | num (n : Int) : Json
  | str (s : String) : Json
  | arr (elems : List Json) : Json
  | obj (fields : List (String × Json)) : Json
deriving Repr

/-- The double-quote character, written by code point. -/
def quoteChar : Char := Char.ofNat 34

/-- The backslash character, written by code point. -/
def backslashChar : Char := Char.ofNat 92

/-- The opening curly brace character, written by code point. -/
def lbraceChar : Char := Char.ofNat 123

/-- The closing curly brace character, written by code point. -/
def rbraceChar : Char := Char.ofNat 125

/-- The single-quote character, written by code point. -/
def squoteChar : Char := Char.ofNat 39

/-- Single-quote as a one-character string (used in Python-style messages). -/
def pySq : String := String.singleton squoteChar

/- Python equality (`==`) on dynamic values.  Scalars follow Python
semantics, in particular `True == 1` and `False == 0`; lists and dicts are
compared structurally (the repository never compares containers, so dict
order-insensitivity is irrelevant here). -/
mutual
def pyEqJson : Json → Json → Bool
  | Json.null, Json.null => true
  | Json.bool a, Json.bool b => a == b
  | Json.bool a, Json.num m => (if a then (1 : Int) else 0) == m
  | Json.num n, Json.bool b => n == (if b then (1 : Int) else 0)
  | Json.num n, Json.num m => n == m
  | Json.str a, Json.str b => a == b
  | Json.arr xs, Json.arr ys => pyEqList xs ys
  | Json.obj xs, Json.obj ys => pyEqFields xs ys
  | _, _ => false

def pyEqList : List Json → List Json → Bool
  | [], [] => true
  | x :: xs, y :: ys => pyEqJson x y && pyEqList xs ys
  | _, _ => false

def pyEqFields : List (String × Json) → List (String × Json) → Bool
  | [], [] => true
  | (k, v) :: xs, (k2, v2) :: ys => k == k2 && pyEqJson v v2 && pyEqFields xs ys
  | _, _ => false
end

/-- Python equality between an optional value (a variable that may hold
`None`) and a non-`None` value: `None == x` is `False` for any non-`None`
`x`. -/
def pyEqOptJson (a : Option Json) (b : Json) : Bool :=
  match a with
  | some x => pyEqJson x b
  | none => false

/-- Python name of the type of a dynamic value, as it appears in
`AttributeError` messages. -/
def pyTypeName : Json → String
  | Json.null => "NoneType"
  | Json.bool _ => "bool"
  | Json.num _ => "int"
  | Json.str _ => "str"
  | Json.arr _ => "list"
  | Json.obj _ => "dict"

/-- Python truthiness test (`bool(x)`). -/
def pyTruthy : Json → Bool
  | Json.null => false
  | Json.bool b => b
  | Json.num n => n != 0
  | Json.str s => s != ""
  | Json.arr xs => !xs.isEmpty
  | Json.obj fs => !fs.isEmpty

/-- Falsiness of an optional value: absent (`None`) values are falsy. -/
def pyFalsyOpt : Option Json → Bool
  | none => true
  | some v => !pyTruthy v

/-- First value stored under a string key (keys produced by `tomllib` and
`json.loads` are unique). -/
def lookupStr (fields : List (String × Json)) (k : String) : Option Json :=
  (fields.find? (fun p => p.1 == k)).map (fun p => p.2)

/-- `dict.get(key)` as seen from Python code: an absent key and a key
stored with JSON `null` both yield Python `None`, i.e. `none` here. -/
def pyGet (fields : List (String × Json)) (k : String) : Option Json :=
  match lookupStr fields k with
  | some Json.null => none
  | r => r

/- `str(x)` for a dynamic value (Python `repr` for nested containers,
single-quoted strings, `True`/`False`/`None` capitalisation). -/
mutual
def pyRepr : Json → String
  | Json.null => "None"
  | Json.bool b => if b then "True" else "False"
  | Json.num n => toString n
  | Json.str s => pySq ++ s ++ pySq
  | Json.arr xs => "[" ++ pyReprList xs ++ "]"
  | Json.obj fs => String.singleton lbraceChar ++ pyReprFields fs ++ String.singleton rbraceChar

def pyReprList : List Json → String
  | [] => ""
  | [x] => pyRepr x
  | x :: xs => pyRepr x ++ ", " ++ pyReprList xs

def pyReprFields : List (String × Json) → String
  | [] => ""
  | [(k, v)] => pySq ++ k ++ pySq ++ ": " ++ pyRepr v
  | (k, v) :: fs => pySq ++ k ++ pySq ++ ": " ++ pyRepr v ++ ", " ++ pyReprFields fs
end

/-- `str(x)` as used in f-strings: top-level strings render without
quotes, everything else like `pyRepr`. -/
def pyStr : Json → String
  | Json.str s => s
  | v => pyRepr v

/-- `str(x)` for a variable that may hold Python `None`. -/
def pyStrOpt : Option Json → String
  | none => "None"
  | some v => pyStr v

/-- ASCII whitespace for Python `str.strip()` as used on this code's
inputs. -/
def isPyWs (c : Char) : Bool :=
  c = ' ' || c = Char.ofNat 9 || c = Char.ofNat 10 || c = Char.ofNat 13

/-- Python `str.strip()` (over the ASCII whitespace this system meets). -/
def pyStripWs (s : String) : String :=
  String.mk (((s.toList.dropWhile isPyWs).reverse.dropWhile isPyWs).reverse)

/-- `int(x)`: integers pass through, booleans map to 0/1, strings are
parsed as decimal integers with optional sign and surrounding blanks;
everything else raises (`Except.error` carries the message). -/
def pyIntOfStr (s : String) : Except String Int :=
  let t := pyStripWs s
  let neg := t.toList.head? = some '-'
  let core := if neg || t.toList.head? = some '+' then t.drop 1 else t
  if core.length > 0 && core.toList.all Char.isDigit then
    let v : Int := Int.ofNat (core.toList.foldl (fun acc c => acc * 10 + (c.toNat - 48)) 0)
    .ok (if neg then -v else v)
  else
    .error ("invalid literal for int() with base 10: " ++ pySq ++ s ++ pySq)

/-- `int(x)` on a dynamic value. -/
def pyIntOf : Json → Except String Int
  | Json.num n => .ok n
  | Json.bool b => .ok (if b then 1 else 0)
  | Json.str s => pyIntOfStr s
  | v => .error ("int() argument must be a string, a bytes-like object or a real number, not " ++ pySq ++ pyTypeName v ++ pySq)

/-- Value of a hexadecimal digit, if the character is one. -/
def hexDigitVal (c : Char) : Option Nat :=
  if c.isDigit then some (c.toNat - 48)
  else if 97 ≤ c.toNat && c.toNat ≤ 102 then some (c.toNat - 87)
  else if 65 ≤ c.toNat && c.toNat ≤ 70 then some (c.toNat - 55)
  else none

/-- `int(s, 16)` for the two-character slices taken in `_hex_to_rgb`:
an optional sign followed by hexadecimal digits. -/
def pyIntBase16 (s : String) : Except String Int :=
  let neg := s.toList.head? = some '-'
  let core := if neg || s.toList.head? = some '+' then s.drop 1 else s
  let digs := core.toList.mapM hexDigitVal
  match digs with
  | some ds =>
    if ds.isEmpty then
      .error ("invalid literal for int() with base 16: " ++ pySq ++ s ++ pySq)
    else
      let v : Int := Int.ofNat (ds.foldl (fun acc d => acc * 16 + d) 0)
      .ok (if neg then -v else v)
  | none => .error ("invalid literal for int() with base 16: " ++ pySq ++ s ++ pySq)

/-- `wled._hex_to_rgb`: strip leading `#` characters, require length 6 or
3 (a length-3 value has each digit doubled), then parse three two-digit
hexadecimal components.  An invalid length raises
`ValueError("Invalid hex color: ...")`, embedded as `Except.error`. -/
def hexToRgb (s : String) : Except String (Int × Int × Int) :=
  let h := String.mk (s.toList.dropWhile (fun c => c = '#'))
  if h.length ≠ 6 && h.length ≠ 3 then
    .error ("Invalid hex color: " ++ h)
  else
    let h6 := if h.length = 3 then String.mk (h.toList.flatMap (fun c => [c, c])) else h
    match pyIntBase16 (String.mk (h6.toList.take 2)),
          pyIntBase16 (String.mk ((h6.toList.drop 2).take 2)),
          pyIntBase16 (String.mk ((h6.toList.drop 4).take 2)) with
    | .ok r, .ok g, .ok b => .ok (r, g, b)
    | .error e, _, _ => .error e
    | _, .error e, _ => .error e
    | _, _, .error e => .error e

/-- `_hex_to_rgb` applied to a dynamic config value: a non-string value
raises `AttributeError` at `hex_color.lstrip("#")`. -/
def hexToRgbJ : Json → Except String (Int × Int × Int)
  | Json.str s => hexToRgb s
  | v => .error (pySq ++ pyTypeName v ++ pySq ++ " object has no attribute " ++ pySq ++ "lstrip" ++ pySq)

/-- One entry of a controller's `segments` array; `id` is the value under
the `id` key (absent key: `none`). -/
structure SegEntry where
  id : Option Json
deriving Repr

/-- One entry of the configuration's `controllers` array, with exactly the
keys `_apply_segmentsolid` reads: `id`, `host`, `port`, `segments`. -/
structure CtrlEntry where
  id : Option Json
  host : Option Json
  port : Option Json
  segments : List SegEntry
deriving Repr

/-- One entry of an application's `modes` array, with exactly the keys the
tray server reads: `id`, `bindings`, `controllers`, `acolor`, `bcolor`,
`abrightness`, `bbrightness`, `transition_ms`. -/
structure ModeEntry where
  id : Option Json
  bindings : List (String × Json)
  controllers : List Json
  acolor : Option Json
  bcolor : Option Json
  abrightness : Option Json
  bbrightness : Option Json
  transitionMs : Option Json
deriving Repr

/-- One entry of the configuration's `application` array: keys `id` and
`modes`. -/
structure AppEntry where
  id : Option Json
  modes : List ModeEntry
deriving Repr

/-- The parsed TOML configuration (`Config.raw`), with the three top-level
keys the core reads: `application`, `controllers`,
`default_transition_ms`. -/
structure ConfigRaw where
  application : List AppEntry
  controllers : List CtrlEntry
  defaultTransitionMs : Option Json
deriving Repr

/-- Test used by both lookup loops: `x.get("id") != "<wanted>"` is false,
i.e. the entry's id equals the wanted string under Python `==`. -/
def idIs (v : Option Json) (wanted : String) : Bool :=
  pyEqOptJson v (Json.str wanted)

/-- `bindings.get(console_name)` where the key is an arbitrary Python
value: unhashable keys (lists, dicts) raise `TypeError`; hashable
non-string keys simply miss every string key of a TOML table. -/
def bindingsGet (table : List (String × Json)) (key : Json) : Except String (Option Json) :=
  match key with
  | Json.arr _ => .error ("unhashable type: " ++ pySq ++ "list" ++ pySq)
  | Json.obj _ => .error ("unhashable type: " ++ pySq ++ "dict" ++ pySq)
  | Json.str s => .ok (lookupStr table s)
  | _ => .ok none

/-- Inner loop of `Config.find_esde_binding`: scan an application's modes
for the first one whose id is `game-select` and return the binding lookup
from that mode; `none` means the loop fell through. -/
def findEsdeModes (name : Json) : List ModeEntry → Option (Except String (Option Json))
  | [] => none
  | m :: ms =>
    if !idIs m.id "game-select" then findEsdeModes name ms
    else some (bindingsGet m.bindings name)

/-- Outer loop of `Config.find_esde_binding`: scan applications for id
`esde`; the first `esde` application containing a `game-select` mode
decides the result, an `esde` application without one falls through to
later applications. -/
def findEsdeApps (name : Json) : List AppEntry → Except String (Option Json)
  | [] => .ok none
  | a :: rest =>
    if !idIs a.id "esde" then findEsdeApps name rest
    else
      match findEsdeModes name a.modes with
      | some r => r
      | none => findEsdeApps name rest

/-- `Config.find_esde_binding(console_name)` from `config.py`. -/
def findEsdeBinding (cfg : ConfigRaw) (name : Json) : Except String (Option Json) :=
  findEsdeApps name cfg.application

/-- The generator expression opening `_apply_segmentsolid`:
`next(m for app in apps if app.id == "esde" for m in app.modes if m.id == "game-select")`,
i.e. the first `game-select` mode of the first `esde` application that has
one (`none` embeds `StopIteration`). -/
def findGameSelectMode (cfg : ConfigRaw) : Option ModeEntry :=
  gameSelectAux cfg.application
where
  gameSelectAux : List AppEntry → Option ModeEntry
    | [] => none
    | a :: rest =>
      if idIs a.id "esde" then
        match a.modes.find? (fun m => idIs m.id "game-select") with
        | some m => some m
        | none => gameSelectAux rest
      else gameSelectAux rest

/-- One outbound segment update (`wled.WLEDPayload` as constructed in
`_apply_segmentsolid`): `onFlag` models the payload field `on` (a Lean keyword),
then `brightness`, `color`, `segment`. -/
structure SegUpdate where
  onFlag : Bool
  brightness : Int
  color : Int × Int × Int
  segment : Option Json
deriving Repr

/-- One `wled.send_batch` invocation: the controller entry it addresses,
the host/port passed in `WLEDController`, the payload list and the
transition value. -/
structure BatchCall where
  ctrl : CtrlEntry
  host : Option Json
  port : Int
  updates : List SegUpdate
  transition : Option Json
deriving Repr

/-- Modelled from the spec: the Controller Client collaborator (spec 4.3,
`wled.send_batch`, which is absent from the repository sources — `tray.py`
calls it but `wled.py` never defines it).  Per the spec its contract is
`apply(host, port, segment_updates, transition) -> success | failure(reason)`;
`none` is success and `some msg` is a raised exception with message `msg`. -/
def SendOracle : Type := Option Json → Int → List SegUpdate → Option Json → Option String

/-- The always-successful controller client: every batch is applied. -/
def successOracle : SendOracle := fun _ _ _ _ => none

/-- `cid in controllers_filter` (Python membership by `==`). -/
def memPy (cid : Option Json) (filter : List Json) : Bool :=
  filter.any (fun f => pyEqJson f (cid.getD Json.null))

/-- The inner `for seg in segments` loop of `_apply_segmentsolid`: each
segment is the active target iff its controller id and segment id equal
the binding's pair under Python `==`; active segments get `acolor`/`abri`,
all others `bcolor`/`bbri`, and `on` is `brightness > 0`.  A color that
`_hex_to_rgb` rejects raises out of the loop (`Except.error`). -/
def buildUpdates (acolor bcolor : Json) (abri bbri : Int) (tc ts : Json) (cid : Option Json) : List SegEntry → Except String (List SegUpdate)
  | [] => .ok []
  | seg :: rest =>
    let isT := pyEqOptJson cid tc && pyEqOptJson seg.id ts
    let segBri := if isT then abri else bbri
    match hexToRgbJ (if isT then acolor else bcolor) with
    | .error e => .error e
    | .ok rgb =>
      match buildUpdates acolor bcolor abri bbri tc ts cid rest with
      | .error e => .error e
      | .ok us => .ok ({ onFlag := decide (segBri > 0), brightness := segBri, color := rgb, segment := seg.id } :: us)

/-- The `for ctrl_entry in cfg_raw.get("controllers", [])` loop of
`_apply_segmentsolid`.  Returns the `send_batch` calls issued (in order)
and the function's outcome: `.ok none` is success, `.ok (some e)` is the
returned error string, `.error c` is an uncaught exception.  Mirrors the
source exactly: a controller excluded by a non-empty filter or without
segments is skipped, `int(port)` may raise, building payloads may raise,
and a `send_batch` exception makes the function return immediately with
`"WLED error on <cid>: <exc>"`. -/
def applyLoop (oracle : SendOracle) (filter : List Json) (acolor bcolor : Json) (abri bbri : Int) (transition : Option Json) (tc ts : Json) : List CtrlEntry → List BatchCall × Except String (Option String)
  | [] => ([], .ok none)
  | e :: rest =>
    if !filter.isEmpty && !memPy e.id filter then
      applyLoop oracle filter acolor bcolor abri bbri transition tc ts rest
    else
      match pyIntOf (e.port.getD (Json.num 80)) with
      | .error c => ([], .error c)
      | .ok cport =>
        if e.segments.isEmpty then
          applyLoop oracle filter acolor bcolor abri bbri transition tc ts rest
        else
          match buildUpdates acolor bcolor abri bbri tc ts e.id e.segments with
          | .error c => ([], .error c)
          | .ok ups =>
            let call : BatchCall := { ctrl := e, host := e.host, port := cport, updates := ups, transition := transition }
            match oracle e.host cport ups transition with
            | some msg => ([call], .ok (some ("WLED error on " ++ pyStrOpt e.id ++ ": " ++ msg)))
            | none =>
              let r := applyLoop oracle filter acolor bcolor abri bbri transition tc ts rest
              (call :: r.1, r.2)

/-- `_apply_segmentsolid(binding, cfg_raw)` from `tray.py`, parameterised
by the controller client (see `SendOracle`).  Result as in `applyLoop`. -/
def applySegmentsolid (oracle : SendOracle) (binding : Json) (cfg : ConfigRaw) : List BatchCall × Except String (Option String) :=
  match findGameSelectMode cfg with
  | none => ([], .ok (some "esde game-select mode not found"))
  | some mode =>
    let acolor := mode.acolor.getD (Json.str "#000000")
    let bcolor := mode.bcolor.getD (Json.str "#000000")
    match pyIntOf (mode.abrightness.getD (Json.num 0)), pyIntOf (mode.bbrightness.getD (Json.num 0)) with
    | .ok abri, .ok bbri =>
      let transition := match mode.transitionMs with
        | some t => some t
        | none => cfg.defaultTransitionMs
      match binding with
      | Json.obj bf =>
        match pyGet bf "controller", pyGet bf "segment" with
        | some tc, some ts =>
          applyLoop oracle mode.controllers acolor bcolor abri bbri transition tc ts cfg.controllers
        | _, _ => ([], .ok (some "Binding missing controller/segment"))
      | other => ([], .error (pySq ++ pyTypeName other ++ pySq ++ " object has no attribute " ++ pySq ++ "get" ++ pySq))
    | _, _ => ([], .ok (some "Invalid brightness values"))

/-- The batches the planner computes when every controller call succeeds:
the full plan of one request. -/
def planBatches (binding : Json) (cfg : ConfigRaw) : List BatchCall :=
  (applySegmentsolid successOracle binding cfg).1

/-- JSON whitespace skipping for the modelled parser. -/
def jsonSkipWs (cs : List Char) : List Char :=
  cs.dropWhile (fun c => c = ' ' || c = Char.ofNat 9 || c = Char.ofNat 10 || c = Char.ofNat 13)

/-- Body of a JSON string literal (opening quote already consumed):
returns the decoded string and the rest of the input.  Supports the
standard escapes; raw control characters are rejected as `json.loads`
does. -/
def parseJStrAux : List Char → Option (String × List Char)
  | [] => none
  | c :: rest =>
    if c = quoteChar then some ("", rest)
    else if c = backslashChar then
      match rest with
      | [] => none
      | e :: rest2 =>
        let esc : Option Char :=
          if e = quoteChar then some quoteChar
          else if e = backslashChar then some backslashChar
          else if e = '/' then some '/'
          else if e = 'n' then some (Char.ofNat 10)
          else if e = 't' then some (Char.ofNat 9)
          else if e = 'r' then some (Char.ofNat 13)
          else if e = 'b' then some (Char.ofNat 8)
          else if e = 'f' then some (Char.ofNat 12)
          else none
        if e = 'u' then
          match rest2 with
          | h1 :: h2 :: h3 :: h4 :: rest3 =>
            match hexDigitVal h1, hexDigitVal h2, hexDigitVal h3, hexDigitVal h4 with
            | some a, some b2, some c2, some d =>
              match parseJStrAux rest3 with
              | some (s, r) => some (String.singleton (Char.ofNat (((a * 16 + b2) * 16 + c2) * 16 + d)) ++ s, r)
              | none => none
            | _, _, _, _ => none
          | _ => none
        else
          match esc with
          | none => none
          | some ch =>
            match parseJStrAux rest2 with
            | some (s, r) => some (String.singleton ch ++ s, r)
            | none => none
    else if c.toNat < 32 then none
    else
      match parseJStrAux rest with
      | some (s, r) => some (String.singleton c ++ s, r)
      | none => none

/-- Integer literal of a JSON document (floats are outside the model: the
repository's wire messages only carry strings and integers). -/
def parseJNum (cs : List Char) : Option (Int × List Char) :=
  let neg := cs.head? = some '-'
  let cs1 := if neg then cs.drop 1 else cs
  let ds := cs1.takeWhile Char.isDigit
  let rest := cs1.dropWhile Char.isDigit
  if ds.isEmpty then none
  else if rest.head? = some '.' || rest.head? = some 'e' || rest.head? = some 'E' then none
  else
    let v : Int := Int.ofNat (ds.foldl (fun acc c => acc * 10 + (c.toNat - 48)) 0)
    some ((if neg then -v else v), rest)

/-- Replace the value stored under `k`, keeping first-insertion order, or
append a new pair — the duplicate-key behaviour of a Python dict. -/
def insertField (fs : List (String × Json)) (k : String) (v : Json) : List (String × Json) :=
  match fs with
  | [] => [(k, v)]
  | (k2, v2) :: rest =>
    if k2 == k then (k2, v) :: rest
    else (k2, v2) :: insertField rest k v

/- Fuel-driven JSON value parser (the fuel bounds the nesting and is set
to the input length at the top level); `parseJItems` parses array elements
and `parseJFields` object members. -/
mutual
def parseJVal : Nat → List Char → Option (Json × List Char)
  | 0, _ => none
  | Nat.succ fuel, cs =>
    let cs := jsonSkipWs cs
    match cs with
    | [] => none
    | c :: rest =>
      if c = quoteChar then (parseJStrAux rest).map (fun p => (Json.str p.1, p.2))
      else if c = 'n' then
        match rest with
        | 'u' :: 'l' :: 'l' :: r => some (Json.null, r)
        | _ => none
      else if c = 't' then
        match rest with
        | 'r' :: 'u' :: 'e' :: r => some (Json.bool true, r)
        | _ => none
      else if c = 'f' then
        match rest with
        | 'a' :: 'l' :: 's' :: 'e' :: r => some (Json.bool false, r)
        | _ => none
      else if c = '[' then
        let r1 := jsonSkipWs rest
        match r1 with
        | ']' :: r2 => some (Json.arr [], r2)
        | _ => parseJItems fuel r1 []
      else if c = lbraceChar then
        let r1 := jsonSkipWs rest
        match r1 with
        | b :: r2 => if b = rbraceChar then some (Json.obj [], r2) else parseJFields fuel r1 []
        | [] => none
      else if c = '-' || c.isDigit then
        (parseJNum cs).map (fun p => (Json.num p.1, p.2))
      else none

def parseJItems : Nat → List Char → List Json → Option (Json × List Char)
  | 0, _, _ => none
  | Nat.succ fuel, cs, acc =>
    match parseJVal fuel cs with
    | none => none
    | some (v, rest) =>
      match jsonSkipWs rest with
      | ',' :: r2 => parseJItems fuel r2 (acc ++ [v])
      | ']' :: r2 => some (Json.arr (acc ++ [v]), r2)
      | _ => none

def parseJFields : Nat → List Char → List (String × Json) → Option (Json × List Char)
  | 0, _, _ => none
  | Nat.succ fuel, cs, acc =>
    match jsonSkipWs cs with
    | c :: rest =>
      if c = quoteChar then
        match parseJStrAux rest with
        | none => none
        | some (k, r1) =>
          match jsonSkipWs r1 with
          | ':' :: r2 =>
            match parseJVal fuel r2 with
            | none => none
            | some (v, r3) =>
              let acc2 := insertField acc k v
              match jsonSkipWs r3 with
              | ',' :: r4 => parseJFields fuel r4 acc2
              | b :: r4 => if b = rbraceChar then some (Json.obj acc2, r4) else none
              | [] => none
          | _ => none
      else none
    | [] => none
end

/-- Modelled from the spec: message framing uses standard `json.loads`
(Python stdlib, outside the repository sources); a framed message is a
single JSON document, here parsed over the decoded text with trailing and
leading whitespace (including the newline terminator) accepted.  `none`
embeds any `json.loads` exception. -/
def pyJsonLoads (s : String) : Option Json :=
  match parseJVal (s.length + 1) s.toList with
  | some (v, rest) => if jsonSkipWs rest = [] then some v else none
  | none => none

/-- JSON string escaping of `json.dumps` (default `ensure_ascii`). -/
def dumpsEscapeChar (c : Char) : String :=
  if c = quoteChar then String.singleton backslashChar ++ String.singleton quoteChar
  else if c = backslashChar then String.singleton backslashChar ++ String.singleton backslashChar
  else if c = Char.ofNat 10 then String.singleton backslashChar ++ "n"
  else if c = Char.ofNat 9 then String.singleton backslashChar ++ "t"
  else if c = Char.ofNat 13 then String.singleton backslashChar ++ "r"
  else if c = Char.ofNat 8 then String.singleton backslashChar ++ "b"
  else if c = Char.ofNat 12 then String.singleton backslashChar ++ "f"
  else if c.toNat < 32 || c.toNat > 126 then
    let hexDigitChar : Nat → Char := fun n => if n < 10 then Char.ofNat (48 + n) else Char.ofNat (87 + n)
    String.singleton backslashChar ++ "u" ++
      String.singleton (hexDigitChar ((c.toNat / 4096) % 16)) ++
      String.singleton (hexDigitChar ((c.toNat / 256) % 16)) ++
      String.singleton (hexDigitChar ((c.toNat / 16) % 16)) ++
      String.singleton (hexDigitChar (c.toNat % 16))
  else String.singleton c

/-- `json.dumps` of a string literal. -/
def dumpsStr (s : String) : String :=
  String.singleton quoteChar ++ String.join (s.toList.map dumpsEscapeChar) ++ String.singleton quoteChar

/- `json.dumps(x)` with the default separators `", "` and `": "`. -/
mutual
def jsonDumps : Json → String
  | Json.null => "null"
  | Json.bool b => if b then "true" else "false"
  | Json.num n => toString n
  | Json.str s => dumpsStr s
  | Json.arr xs => "[" ++ jsonDumpsList xs ++ "]"
  | Json.obj fs => String.singleton lbraceChar ++ jsonDumpsFields fs ++ String.singleton rbraceChar

def jsonDumpsList : List Json → String
  | [] => ""
  | [x] => jsonDumps x
  | x :: xs => jsonDumps x ++ ", " ++ jsonDumpsList xs

def jsonDumpsFields : List (String × Json) → String
  | [] => ""
  | [(k, v)] => dumpsStr k ++ ": " ++ jsonDumps v
  | (k, v) :: fs => dumpsStr k ++ ": " ++ jsonDumps v ++ ", " ++ jsonDumpsFields fs
end

/-- IPC response as built by `serve` before serialisation. -/
inductive Response where
  | ok (binding : Json) (console : Json) : Response
  | err (msg : String) : Response
deriving Repr

/-- The payload dict passed to `_send_message` for a response. -/
def respToJson : Response → Json
  | Response.ok b c => Json.obj [("status", Json.str "ok"), ("binding", b), ("console", c)]
  | Response.err m => Json.obj [("status", Json.str "error"), ("error", Json.str m)]

/-- `_send_message`: `json.dumps(payload) + "\n"` — the exact bytes
written back on the pipe. -/
def renderResponse (r : Response) : String :=
  jsonDumps (respToJson r) ++ String.singleton (Char.ofNat 10)

/-- Outcome of one accepted connection: no response written (empty read),
a response written, or an uncaught exception escaping the handler (which
terminates the `serve` loop). -/
inductive ConnOutcome where
  | noResponse : ConnOutcome
  | resp (r : Response) : ConnOutcome
  | crashed (msg : String) : ConnOutcome
deriving Repr

/-- The dispatch cascade of `serve` applied to the parse outcome of one
framed request (`none` = `json.loads` raised): invalid JSON, unsupported
type, missing name, configuration error, unknown console, planner
error/crash, success — in source order.  `cfgLoad` is the outcome of
`load_config` (`.error` = `ConfigError` message); the controller client is
passed through to the planner. -/
def dispatchParsed (oracle : SendOracle) (cfgLoad : Except String ConfigRaw) (parsed : Option Json) : ConnOutcome :=
  match parsed with
  | none => ConnOutcome.resp (Response.err "invalid_json")
  | some msg =>
    match msg with
    | Json.obj fields =>
      if !(pyEqOptJson (pyGet fields "type") (Json.str "console")) then
        ConnOutcome.resp (Response.err "unsupported_type")
      else if pyFalsyOpt (pyGet fields "name") then
        ConnOutcome.resp (Response.err "missing_name")
      else
        let nv := (pyGet fields "name").getD Json.null
        match cfgLoad with
        | .error e => ConnOutcome.resp (Response.err e)
        | .ok cfg =>
          match findEsdeBinding cfg nv with
          | .error c => ConnOutcome.crashed c
          | .ok none => ConnOutcome.resp (Response.err ("console " ++ pySq ++ pyStr nv ++ pySq ++ " not found"))
          | .ok (some b) =>
            match (applySegmentsolid oracle b cfg).2 with
            | .error c => ConnOutcome.crashed c
            | .ok (some e) => ConnOutcome.resp (Response.err e)
            | .ok none => ConnOutcome.resp (Response.ok b nv)
    | other => ConnOutcome.crashed (pySq ++ pyTypeName other ++ pySq ++ " object has no attribute " ++ pySq ++ "get" ++ pySq)

/-- One receive event on the pipe: a data chunk, or the peer closing the
pipe (`ReadFile` raising winerror 109, or a zero-byte read). -/
inductive ReadEvent where
  | data (s : String) : ReadEvent
  | closed : ReadEvent
deriving Repr

/-- `_read_message`: accumulate chunks until one contains a newline or the
peer closes; an exhausted event list stands for a closed peer. -/
def readMessage : List ReadEvent → String
  | [] => ""
  | ReadEvent.closed :: _ => ""
  | ReadEvent.data s :: rest =>
    if s = "" then ""
    else if s.toList.contains (Char.ofNat 10) then s
    else s ++ readMessage rest

/-- The body of one `serve` iteration after `_read_message` returned
`raw`: an empty read is dropped with no response (`continue`), anything
else goes through `json.loads` and the dispatch cascade. -/
def serveConnRaw (oracle : SendOracle) (cfgLoad : Except String ConfigRaw) (raw : String) : ConnOutcome :=
  if raw = "" then ConnOutcome.noResponse
  else dispatchParsed oracle cfgLoad (pyJsonLoads raw)

/-- One `serve` iteration from the receive events of one connection. -/
def serveConn (oracle : SendOracle) (cfgLoad : Except String ConfigRaw) (evs : List ReadEvent) : ConnOutcome :=
  serveConnRaw oracle cfgLoad (readMessage evs)

/-- A run of the `serve` loop over a sequence of connections, each
carrying its raw request and the controller-client behaviour during that
request.  The configuration is reloaded per request, so an unchanged
configuration is a constant `cfgLoad`.  An uncaught exception ends the
loop: later connections are never served. -/
def serveSession (cfgLoad : Except String ConfigRaw) : List (String × SendOracle) → List ConnOutcome
  | [] => []
  | (raw, oracle) :: rest =>
    match serveConnRaw oracle cfgLoad raw with
    | ConnOutcome.crashed m => [ConnOutcome.crashed m]
    | o => o :: serveSession cfgLoad rest

/-- The bytes a connection outcome puts on the wire (`none`: nothing). -/
def renderOutcome : ConnOutcome → Option String
  | ConnOutcome.resp r => some (renderResponse r)
  | _ => none

/-- State of the named-pipe endpoint as the short-lived client sees it:
absent (`CreateFile` fails with winerror 2), failing to open for another
reason, failing during read/write, or answering with raw bytes. -/
inductive PipeWorld where
  | absent : PipeWorld
  | openError (msg : String) : PipeWorld
  | ioError (msg : String) : PipeWorld
  | responds (data : String) : PipeWorld

/-- `ipc.format_console_message`. -/
def formatConsoleMessage (consoleName : String) : String :=
  jsonDumps (Json.obj [("type", Json.str "console"), ("name", Json.str consoleName)])

/-- `ipc.send_console_request`: every failure — endpoint absent, other
open errors, read/write errors, and a response `json.loads` cannot parse —
raises `IPCNotReady` (embedded as `.error` with the exception message);
success returns the parsed response. -/
def sendConsoleRequest (w : PipeWorld) (_consoleName : String) : Except String Json :=
  match w with
  | PipeWorld.absent => .error "Tray IPC not running (pipe not found)"
  | PipeWorld.openError m => .error ("Tray IPC error opening pipe: " ++ m)
  | PipeWorld.ioError m => .error ("Tray IPC read/write error: " ++ m)
  | PipeWorld.responds data =>
    match pyJsonLoads (pyStripWs data) with
    | some j => .ok j
    | none => .error ("Tray IPC response not valid JSON: " ++ pyRepr (Json.str data))

/-- `cli.handle_console`: config error → 2, unknown console → 3,
`IPCNotReady` → 4; any parsed response — its `status` is never examined —
→ 0.  The outer `.error` embeds an uncaught exception (impossible for
string console names). -/
def handleConsole (cfgLoad : Except String ConfigRaw) (name : String) (w : PipeWorld) : Except String Int :=
  match cfgLoad with
  | .error _ => .ok 2
  | .ok cfg =>
    match findEsdeBinding cfg (Json.str name) with
    | .error c => .error c
    | .ok none => .ok 3
    | .ok (some _) =>
      match sendConsoleRequest w name with
      | .error _ => .ok 4
      | .ok _ => .ok 0

/-- The newline terminator of framed messages. -/
def nlStr : String := String.singleton (Char.ofNat 10)

/-- A planned update is "the active target" when its controller id and
segment id equal the binding pair under Python `==` — the predicate
`is_target` of the planner, lifted to a produced batch. -/
def updateIsTarget (tc : String) (ts : Int) (c : BatchCall) (u : SegUpdate) : Bool :=
  pyEqOptJson c.ctrl.id (Json.str tc) && pyEqOptJson u.segment (Json.num ts)

/-- Number of planned segment updates across all batches addressed to the
binding pair `(tc, ts)`. -/
def targetCount (tc : String) (ts : Int) (calls : List BatchCall) : Nat :=
  (calls.map (fun c => c.updates.countP (fun u => updateIsTarget tc ts c u))).sum

/-- Whether the controller client fails on a given batch. -/
def callFails (oracle : SendOracle) (c : BatchCall) : Bool :=
  (oracle c.host c.port c.updates c.transition).isSome

/-- The error string `_apply_segmentsolid` returns for a failing batch. -/
def wledFailMsg (c : BatchCall) (m : String) : String :=
  "WLED error on " ++ pyStrOpt c.ctrl.id ++ ": " ++ m

/-- Fixture: a segment entry with an integer id. -/
def segC (n : Int) : SegEntry := { id := some (Json.num n) }

/-- Fixture: a controller entry with string id and host, default port. -/
def ctrlC (cid host : String) (segs : List Int) : CtrlEntry :=
  { id := some (Json.str cid), host := some (Json.str host), port := none, segments := segs.map segC }

/-- Fixture: the binding value stored for `snes` in the examples below. -/
def bndC1 : Json := Json.obj [("controller", Json.str "c1"), ("segment", Json.num 0)]

/-- Fixture: a `game-select` mode binding `snes` to controller `c1`,
segment 0, with every styling key absent (defaults apply). -/
def modeThree : ModeEntry :=
  { id := some (Json.str "game-select"), bindings := [("snes", bndC1)],
    controllers := [], acolor := none, bcolor := none,
    abrightness := none, bbrightness := none, transitionMs := none }

/-- Fixture: three one-segment controllers behind the `snes` binding. -/
def cfgThree : ConfigRaw :=
  { application := [{ id := some (Json.str "esde"), modes := [modeThree] }],
    controllers := [ctrlC "c1" "h1" [0], ctrlC "c2" "h2" [0], ctrlC "c3" "h3" [0]],
    defaultTransitionMs := none }

/-- Fixture: a controller client that fails exactly on host `h2`. -/
def oracleFailH2 : SendOracle := fun h _ _ _ =>
  match h with
  | some (Json.str s) => if s = "h2" then some "boom" else none
  | _ => none

/-- Fixture: a controller client that always fails. -/
def oracleFailAll : SendOracle := fun _ _ _ _ => some "boom"

/-- Fixture: the spec's end-to-end example — `snes` bound to
`livingroom` segment 2, active red at brightness 255 over black at 0. -/
def bndLiving : Json := Json.obj [("controller", Json.str "livingroom"), ("segment", Json.num 2)]

/-- Fixture: the styled `game-select` mode of the end-to-end example. -/
def modeLiving : ModeEntry :=
  { id := some (Json.str "game-select"), bindings := [("snes", bndLiving)],
    controllers := [], acolor := some (Json.str "#FF0000"), bcolor := some (Json.str "#000000"),
    abrightness := some (Json.num 255), bbrightness := some (Json.num 0), transitionMs := none }

/-- Fixture: configuration of the end-to-end example (one controller,
segments 0, 1, 2). -/
def cfgLiving : ConfigRaw :=
  { application := [{ id := some (Json.str "esde"), modes := [modeLiving] }],
    controllers := [ctrlC "livingroom" "10.0.0.5" [0, 1, 2]],
    defaultTransitionMs := none }

/-- Fixture: like `cfgLiving` but with an invalid active color value. -/
def modeBadColor : ModeEntry :=
  { id := some (Json.str "game-select"), bindings := [("snes", bndC1)],
    controllers := [], acolor := some (Json.str "#12345"), bcolor := none,
    abrightness := none, bbrightness := none, transitionMs := none }

/-- Fixture: configuration whose mode styling holds the invalid color. -/
def cfgBadColor : ConfigRaw :=
  { application := [{ id := some (Json.str "esde"), modes := [modeBadColor] }],
    controllers := [ctrlC "c1" "h1" [0]],
    defaultTransitionMs := none }

/-- Fixture: the parsed request `{"type": "console", "name": "snes"}`. -/
def msgSnes : Json := Json.obj [("type", Json.str "console"), ("name", Json.str "snes")]

/-- Fixture: the framed wire form of the `snes` request. -/
def reqSnes : String := formatConsoleMessage "snes" ++ nlStr

/-- A controller is processed by the planner loop iff it passes a
non-empty allow-list and has at least one declared segment. -/
def ctrlEligible (filter : List Json) (e : CtrlEntry) : Bool :=
  (filter.isEmpty || memPy e.id filter) && !e.segments.isEmpty

/-- Fixture: a later `game-select` mode binding `gba` (used to show the
resolver never reaches it). -/
def modeGba : ModeEntry :=
  { id := some (Json.str "game-select"),
    bindings := [("gba", Json.obj [("controller", Json.str "c9"), ("segment", Json.num 9)])],
    controllers := [], acolor := none, bcolor := none,
    abrightness := none, bbrightness := none, transitionMs := none }

/-- Fixture: `cfgLiving` extended with a second `esde` application whose
`game-select` mode binds `gba`. -/
def cfgLivingPlus : ConfigRaw :=
  { cfgLiving with application := cfgLiving.application ++ [{ id := some (Json.str "esde"), modes := [modeGba] }] }

/-- Fixture: the base-styled update for segment 0 of the fixtures. -/
def updBase0 : SegUpdate :=
  { onFlag := false, brightness := 0, color := (0, 0, 0), segment := some (Json.num 0) }

/-- Fixture: the base-styled update for segment 1 of `cfgLiving`. -/
def updBase1 : SegUpdate :=
  { onFlag := false, brightness := 0, color := (0, 0, 0), segment := some (Json.num 1) }

/-- Fixture: the active update for segment 2 of `cfgLiving`. -/
def updActive : SegUpdate :=
  { onFlag := true, brightness := 255, color := (255, 0, 0), segment := some (Json.num 2) }

/-- Fixture: the single batch planned for `cfgLiving`. -/
def callLiving : BatchCall :=
  { ctrl := ctrlC "livingroom" "10.0.0.5" [0, 1, 2], host := some (Json.str "10.0.0.5"),
    port := 80, updates := [updBase0, updBase1, updActive], transition := none }

/-- Fixture: the batch planned for controller `c2` of `cfgThree`. -/
def callC2 : BatchCall :=
  { ctrl := ctrlC "c2" "h2" [0], host := some (Json.str "h2"),
    port := 80, updates := [updBase0], transition := none }

/-- Fixture: a server response reporting `status = "error"`. -/
def respErrBoom : String :=
  String.singleton lbraceChar ++ dumpsStr "status" ++ ": " ++ dumpsStr "error" ++ ", " ++ dumpsStr "error" ++ ": " ++ dumpsStr "boom" ++ String.singleton rbraceChar

/-- Fixture: a request object with `type = "console"` but no name key. -/
def msgNoName : Json := Json.obj [("type", Json.str "console")]

theorem findEsdeModes_eq_find (name : Json) (ms : List ModeEntry) :
    findEsdeModes name ms =
      (ms.find? (fun m => idIs m.id "game-select")).map (fun m => bindingsGet m.bindings name) := by
  induction ms with
  | nil => rfl
  | cons m rest ih =>
    cases h : idIs m.id "game-select" <;>
      simp [findEsdeModes, List.find?, h, ih]

theorem findEsdeApps_eq_aux (name : Json) (apps : List AppEntry) :
    findEsdeApps name apps =
      match findGameSelectMode.gameSelectAux apps with
      | some m => bindingsGet m.bindings name
      | none => Except.ok none := by
  induction apps with
  | nil => rfl
  | cons a rest ih =>
    cases h : idIs a.id "esde"
    · simp [findEsdeApps, findGameSelectMode.gameSelectAux, h, ih]
    · simp only [findEsdeApps, findGameSelectMode.gameSelectAux, h, Bool.not_true,
        Bool.false_eq_true, if_false, if_true, findEsdeModes_eq_find]
      cases hf : a.modes.find? (fun m => idIs m.id "game-select") <;> simp [ih]

theorem findEsdeBinding_char (cfg : ConfigRaw) (s : String) :
    findEsdeBinding cfg (Json.str s) =
      Except.ok (match findGameSelectMode cfg with
        | some m => lookupStr m.bindings s
        | none => none) := by
  unfold findEsdeBinding findGameSelectMode
  rw [findEsdeApps_eq_aux]
  cases findGameSelectMode.gameSelectAux cfg.application <;> simp [bindingsGet]

/-- C4: for every console name that is a key of the `esde`/`game-select`
binding table, `find_esde_binding` returns exactly the stored value under
exact (string-equality, hence case-sensitive) key match; for names absent
from that table, and whenever no `esde` application carries a
`game-select` mode, it returns `None`.  The function is pure, so it has no
side effect. -/
theorem claim4_resolver_exact_lookup (cfg : ConfigRaw) (s : String) :
    (∀ m v, findGameSelectMode cfg = some m → lookupStr m.bindings s = some v →
        findEsdeBinding cfg (Json.str s) = Except.ok (some v)) ∧
    (∀ m, findGameSelectMode cfg = some m → lookupStr m.bindings s = none →
        findEsdeBinding cfg (Json.str s) = Except.ok none) ∧
    (findGameSelectMode cfg = none → findEsdeBinding cfg (Json.str s) = Except.ok none) := by
  refine ⟨?_, ?_, ?_⟩
  · intro m v hm hv; rw [findEsdeBinding_char, hm]; simp [hv]
  · intro m hm hv; rw [findEsdeBinding_char, hm]; simp [hv]
  · intro hm; rw [findEsdeBinding_char, hm]

/-- C4 witness: in the end-to-end fixture, `snes` resolves to the stored
binding and the differently-cased `SNES` does not resolve. -/
theorem claim4_witness :
    findEsdeBinding cfgLiving (Json.str "snes") = Except.ok (some bndLiving) ∧
    findEsdeBinding cfgLiving (Json.str "SNES") = Except.ok none :=
  ⟨(claim4_resolver_exact_lookup cfgLiving "snes").1 modeLiving bndLiving rfl rfl,
   (claim4_resolver_exact_lookup cfgLiving "SNES").2.1 modeLiving rfl rfl⟩

/-- C10: the resolver's result is fully decided by the first `game-select`
mode of the first `esde` application having one — the first conjunct
computes the result from that mode alone (also when the lookup misses, so
later modes are never reached), and the second states the induced
invariance: configurations agreeing on that first mode resolve every name
identically. -/
theorem claim10_first_esde_game_select_decides (cfg cfg2 : ConfigRaw) (s : String) :
    findEsdeBinding cfg (Json.str s) =
      Except.ok ((findGameSelectMode cfg).bind (fun m => lookupStr m.bindings s)) ∧
    (findGameSelectMode cfg = findGameSelectMode cfg2 →
      findEsdeBinding cfg (Json.str s) = findEsdeBinding cfg2 (Json.str s)) := by
  constructor
  · rw [findEsdeBinding_char]; cases findGameSelectMode cfg <;> rfl
  · intro h
    rw [findEsdeBinding_char, findEsdeBinding_char, h]

/-- C10 witness: extending the configuration with a later `esde`
application whose `game-select` mode binds `gba` does not change any
lookup — in particular `gba` still does not resolve. -/
theorem claim10_witness :
    findEsdeBinding cfgLivingPlus (Json.str "gba") = findEsdeBinding cfgLiving (Json.str "gba") :=
  (claim10_first_esde_game_select_decides cfgLivingPlus cfgLiving "gba").2 rfl

theorem buildUpdates_on (acolor bcolor : Json) (abri bbri : Int) (tc ts : Json) (cid : Option Json) :
    ∀ segs ups, buildUpdates acolor bcolor abri bbri tc ts cid segs = Except.ok ups →
      ∀ u ∈ ups, u.onFlag = decide (u.brightness > 0) := by
  intro segs
  induction segs with
  | nil =>
    intro ups h u hu
    simp only [buildUpdates] at h
    cases h
    simp at hu
  | cons seg rest ih =>
    intro ups h u hu
    simp only [buildUpdates] at h
    split at h
    · cases h
    · split at h
      · cases h
      · rename_i us hrest
        injection h with h2
        subst h2
        rcases List.mem_cons.mp hu with hEq | hMem
        · subst hEq; rfl
        · exact ih us hrest u hMem

theorem buildUpdates_forall2 (acolor bcolor : Json) (abri bbri : Int) (tc ts : Json) (cid : Option Json) :
    ∀ segs ups, buildUpdates acolor bcolor abri bbri tc ts cid segs = Except.ok ups →
      List.Forall₂ (fun (seg : SegEntry) (u : SegUpdate) =>
        u.segment = seg.id ∧
        ((pyEqOptJson cid tc && pyEqOptJson seg.id ts) = true →
          u.brightness = abri ∧ hexToRgbJ acolor = Except.ok u.color) ∧
        ((pyEqOptJson cid tc && pyEqOptJson seg.id ts) = false →
          u.brightness = bbri ∧ hexToRgbJ bcolor = Except.ok u.color)) segs ups := by
  intro segs
  induction segs with
  | nil =>
    intro ups h
    simp only [buildUpdates] at h
    cases h
    exact List.Forall₂.nil
  | cons seg rest ih =>
    intro ups h
    cases hT : (pyEqOptJson cid tc && pyEqOptJson seg.id ts) <;>
      simp only [buildUpdates, hT, if_true, if_false, Bool.false_eq_true, Bool.true_eq_false] at h <;>
      split at h
    · cases h
    · rename_i rgb hhex
      split at h
      · cases h
      · rename_i us hrest
        injection h with h2
        subst h2
        refine List.Forall₂.cons ⟨rfl, ?_, ?_⟩ (ih us hrest)
        · intro hc; rw [hT] at hc; cases hc
        · intro _; exact ⟨rfl, hhex⟩
    · cases h
    · rename_i rgb hhex
      split at h
      · cases h
      · rename_i us hrest
        injection h with h2
        subst h2
        refine List.Forall₂.cons ⟨rfl, ?_, ?_⟩ (ih us hrest)
        · intro _; exact ⟨rfl, hhex⟩
        · intro hc; rw [hT] at hc; cases hc

theorem applyLoop_call_shape (oracle : SendOracle) (filter : List Json) (acolor bcolor : Json) (abri bbri : Int) (transition : Option Json) (tc ts : Json) :
    ∀ ctrls call, call ∈ (applyLoop oracle filter acolor bcolor abri bbri transition tc ts ctrls).1 →
      call.ctrl ∈ ctrls ∧ ctrlEligible filter call.ctrl = true ∧
      buildUpdates acolor bcolor abri bbri tc ts call.ctrl.id call.ctrl.segments = Except.ok call.updates ∧
      call.transition = transition := by
  intro ctrls
  induction ctrls with
  | nil => intro call h; simp [applyLoop] at h
  | cons e rest ih =>
    intro call h
    simp only [applyLoop] at h
    split at h
    · rename_i hskip
      rcases ih call h with ⟨h1, h2, h3, h4⟩
      exact ⟨List.mem_cons_of_mem _ h1, h2, h3, h4⟩
    · rename_i hpass
      split at h
      · simp at h
      · rename_i cport hport
        split at h
        · rename_i hempty
          rcases ih call h with ⟨h1, h2, h3, h4⟩
          exact ⟨List.mem_cons_of_mem _ h1, h2, h3, h4⟩
        · rename_i hnonempty
          split at h
          · simp at h
          · rename_i ups hbuild
            have helig : ctrlEligible filter e = true := by
              simp only [ctrlEligible]
              simp only [Bool.and_eq_true, Bool.not_eq_true']
              constructor
              · rcases Bool.not_eq_true _ ▸ hpass with _
                by_cases hf : filter.isEmpty
                · simp [hf]
                · simp only [Bool.or_eq_true]
                  right
                  by_contra hm
                  exact hpass (by simp [hf, Bool.not_eq_true _ ▸ hm, hm])
              · exact Bool.not_eq_true' .. ▸ (by simpa using hnonempty)
            split at h
            · rename_i msg hfail
              rcases List.mem_singleton.mp h with hEq
              subst hEq
              exact ⟨List.mem_cons_self _ _, helig, hbuild, rfl⟩
            · rcases List.mem_cons.mp h with hEq | hMem
              · subst hEq
                exact ⟨List.mem_cons_self _ _, helig, hbuild, rfl⟩
              · rcases ih call hMem with ⟨h1, h2, h3, h4⟩
                exact ⟨List.mem_cons_of_mem _ h1, h2, h3, h4⟩

theorem applySegmentsolid_calls_from_loop (oracle : SendOracle) (binding : Json) (cfg : ConfigRaw) :
    ∀ call ∈ (applySegmentsolid oracle binding cfg).1,
      ∃ acolor bcolor abri bbri tc ts,
        buildUpdates acolor bcolor abri bbri tc ts call.ctrl.id call.ctrl.segments = Except.ok call.updates := by
  intro call hc
  simp only [applySegmentsolid] at hc
  split at hc
  · simp at hc
  · split at hc
    · split at hc
      · split at hc
        · rename_i tc ts _ _
          rcases applyLoop_call_shape oracle _ _ _ _ _ _ tc ts cfg.controllers call hc with ⟨_, _, hbuild, _⟩
          exact ⟨_, _, _, _, tc, ts, hbuild⟩
        · simp at hc
      · simp at hc
    · simp at hc

/-- C6: in every planned segment update, for any controller-client
behaviour, any binding and any configuration, the `on` state equals
`brightness > 0`; in particular an update with brightness 0 is off no
matter which color value the configuration assigned to it. -/
theorem claim6_on_iff_brightness_pos (oracle : SendOracle) (binding : Json) (cfg : ConfigRaw) (call : BatchCall) (u : SegUpdate)
    (hc : call ∈ (applySegmentsolid oracle binding cfg).1) (hu : u ∈ call.updates) :
    u.onFlag = decide (u.brightness > 0) := by
  rcases applySegmentsolid_calls_from_loop oracle binding cfg call hc with ⟨a, b, ab, bb, tc, ts, hbuild⟩
  exact buildUpdates_on a b ab bb tc ts call.ctrl.id call.ctrl.segments call.updates hbuild u hu

/-- C6 witness: in the end-to-end fixture the zero-brightness update for
segment 0 is off and the brightness-255 update for segment 2 is on. -/
theorem claim6_witness :
    updBase0.onFlag = decide (updBase0.brightness > 0) ∧
    updActive.onFlag = decide (updActive.brightness > 0) :=
  ⟨claim6_on_iff_brightness_pos successOracle bndLiving cfgLiving callLiving updBase0
      (by rw [show (applySegmentsolid successOracle bndLiving cfgLiving).1 = [callLiving] by rfl]; exact List.mem_singleton.mpr rfl)
      (List.mem_cons_self _ _),
   claim6_on_iff_brightness_pos successOracle bndLiving cfgLiving callLiving updActive
      (by rw [show (applySegmentsolid successOracle bndLiving cfgLiving).1 = [callLiving] by rfl]; exact List.mem_singleton.mpr rfl)
      (List.mem_cons_of_mem _ (List.mem_cons_of_mem _ (List.mem_cons_self _ _)))⟩

theorem applyLoop_success_shape (filter : List Json) (acolor bcolor : Json) (abri bbri : Int) (transition : Option Json) (tc ts : Json) :
    ∀ ctrls, (applyLoop successOracle filter acolor bcolor abri bbri transition tc ts ctrls).2 = Except.ok none →
      (applyLoop successOracle filter acolor bcolor abri bbri transition tc ts ctrls).1.map (fun c => c.ctrl) =
        ctrls.filter (ctrlEligible filter) := by
  intro ctrls
  induction ctrls with
  | nil => intro _; rfl
  | cons e rest ih =>
    intro h
    by_cases hskip : (!filter.isEmpty && !memPy e.id filter) = true
    · have heq : applyLoop successOracle filter acolor bcolor abri bbri transition tc ts (e :: rest) =
          applyLoop successOracle filter acolor bcolor abri bbri transition tc ts rest := by
        simp [applyLoop, hskip]
      have helig : ctrlEligible filter e = false := by
        rcases Bool.and_eq_true .. ▸ hskip with ⟨h1, h2⟩
        simp only [ctrlEligible, Bool.and_eq_false_iff, Bool.or_eq_false_iff]
        left
        exact ⟨Bool.not_eq_true' .. ▸ h1, Bool.not_eq_true' .. ▸ h2⟩
      rw [heq] at h ⊢
      rw [List.filter_cons, helig]
      simpa using ih h
    · cases hport : pyIntOf (e.port.getD (Json.num 80)) with
      | error c =>
        have heq : applyLoop successOracle filter acolor bcolor abri bbri transition tc ts (e :: rest) =
            ([], Except.error c) := by
          simp [applyLoop, hskip, hport]
        rw [heq] at h
        cases h
      | ok cport =>
        by_cases hseg : e.segments.isEmpty
        · have heq : applyLoop successOracle filter acolor bcolor abri bbri transition tc ts (e :: rest) =
              applyLoop successOracle filter acolor bcolor abri bbri transition tc ts rest := by
            simp [applyLoop, hskip, hport, hseg]
          have helig : ctrlEligible filter e = false := by
            simp [ctrlEligible, hseg]
          rw [heq] at h ⊢
          rw [List.filter_cons, helig]
          simpa using ih h
        · cases hbuild : buildUpdates acolor bcolor abri bbri tc ts e.id e.segments with
          | error c =>
            have heq : applyLoop successOracle filter acolor bcolor abri bbri transition tc ts (e :: rest) =
                ([], Except.error c) := by
              simp [applyLoop, hskip, hport, hseg, hbuild]
            rw [heq] at h
            cases h
          | ok ups =>
            have heq : applyLoop successOracle filter acolor bcolor abri bbri transition tc ts (e :: rest) =
                ({ ctrl := e, host := e.host, port := cport, updates := ups, transition := transition } ::
                    (applyLoop successOracle filter acolor bcolor abri bbri transition tc ts rest).1,
                  (applyLoop successOracle filter acolor bcolor abri bbri transition tc ts rest).2) := by
              simp [applyLoop, hskip, hport, hseg, hbuild, successOracle]
            have helig : ctrlEligible filter e = true := by
              simp only [ctrlEligible, Bool.and_eq_true, Bool.not_eq_true']
              refine ⟨?_, by simpa using hseg⟩
              by_cases hf : filter.isEmpty
              · simp [hf]
              · simp only [Bool.or_eq_true]
                right
                by_contra hm
                exact hskip (by simp [hf, Bool.not_eq_true _ ▸ hm, hm])
            rw [heq] at h ⊢
            rw [List.filter_cons, helig]
            simpa using ih h

theorem applyLoop_firstFail (oracle : SendOracle) (filter : List Json) (acolor bcolor : Json) (abri bbri : Int) (transition : Option Json) (tc ts : Json) :
    ∀ ctrls, (applyLoop successOracle filter acolor bcolor abri bbri transition tc ts ctrls).2 = Except.ok none →
      ((applyLoop successOracle filter acolor bcolor abri bbri transition tc ts ctrls).1.findIdx? (callFails oracle) = none →
        applyLoop oracle filter acolor bcolor abri bbri transition tc ts ctrls =
          ((applyLoop successOracle filter acolor bcolor abri bbri transition tc ts ctrls).1, Except.ok none)) ∧
      (∀ i c m, (applyLoop successOracle filter acolor bcolor abri bbri transition tc ts ctrls).1.findIdx? (callFails oracle) = some i →
        (applyLoop successOracle filter acolor bcolor abri bbri transition tc ts ctrls).1.get? i = some c →
        oracle c.host c.port c.updates c.transition = some m →
        applyLoop oracle filter acolor bcolor abri bbri transition tc ts ctrls =
          ((applyLoop successOracle filter acolor bcolor abri bbri transition tc ts ctrls).1.take (i + 1),
            Except.ok (some (wledFailMsg c m)))) := by
  intro ctrls
  induction ctrls with
  | nil =>
    intro _
    exact ⟨fun _ => rfl, fun i c m hidx _ _ => by cases hidx⟩
  | cons e rest ih =>
    intro h
    by_cases hskip : (!filter.isEmpty && !memPy e.id filter) = true
    · have heqS : applyLoop successOracle filter acolor bcolor abri bbri transition tc ts (e :: rest) =
          applyLoop successOracle filter acolor bcolor abri bbri transition tc ts rest := by
        simp [applyLoop, hskip]
      have heqO : applyLoop oracle filter acolor bcolor abri bbri transition tc ts (e :: rest) =
          applyLoop oracle filter acolor bcolor abri bbri transition tc ts rest := by
        simp [applyLoop, hskip]
      rw [heqS] at h ⊢
      rw [heqO]
      exact ih h
    · cases hport : pyIntOf (e.port.getD (Json.num 80)) with
      | error c =>
        have heqS : applyLoop successOracle filter acolor bcolor abri bbri transition tc ts (e :: rest) =
            ([], Except.error c) := by
          simp [applyLoop, hskip, hport]
        rw [heqS] at h
        cases h
      | ok cport =>
        by_cases hseg : e.segments.isEmpty
        · have heqS : applyLoop successOracle filter acolor bcolor abri bbri transition tc ts (e :: rest) =
              applyLoop successOracle filter acolor bcolor abri bbri transition tc ts rest := by
            simp [applyLoop, hskip, hport, hseg]
          have heqO : applyLoop oracle filter acolor bcolor abri bbri transition tc ts (e :: rest) =
              applyLoop oracle filter acolor bcolor abri bbri transition tc ts rest := by
            simp [applyLoop, hskip, hport, hseg]
          rw [heqS] at h ⊢
          rw [heqO]
          exact ih h
        · cases hbuild : buildUpdates acolor bcolor abri bbri tc ts e.id e.segments with
          | error c =>
            have heqS : applyLoop successOracle filter acolor bcolor abri bbri transition tc ts (e :: rest) =
                ([], Except.error c) := by
              simp [applyLoop, hskip, hport, hseg, hbuild]
            rw [heqS] at h
            cases h
          | ok ups =>
            have heqS : applyLoop successOracle filter acolor bcolor abri bbri transition tc ts (e :: rest) =
                ({ ctrl := e, host := e.host, port := cport, updates := ups, transition := transition } ::
                    (applyLoop successOracle filter acolor bcolor abri bbri transition tc ts rest).1,
                  (applyLoop successOracle filter acolor bcolor abri bbri transition tc ts rest).2) := by
              simp [applyLoop, hskip, hport, hseg, hbuild, successOracle]
            rw [heqS] at h ⊢
            cases horc : oracle e.host cport ups transition with
            | some m0 =>
              have heqO : applyLoop oracle filter acolor bcolor abri bbri transition tc ts (e :: rest) =
                  ([{ ctrl := e, host := e.host, port := cport, updates := ups, transition := transition }],
                    Except.ok (some (wledFailMsg { ctrl := e, host := e.host, port := cport, updates := ups, transition := transition } m0))) := by
                simp [applyLoop, hskip, hport, hseg, hbuild, horc, wledFailMsg]
              have hfail : callFails oracle { ctrl := e, host := e.host, port := cport, updates := ups, transition := transition } = true := by
                simp [callFails, horc]
              constructor
              · intro hidx
                rw [List.findIdx?_cons, hfail] at hidx
                simp at hidx
              · intro i c m hidx hget hm
                rw [List.findIdx?_cons, hfail] at hidx
                simp only [if_true] at hidx
                injection hidx with hi
                subst hi
                simp only [List.get?] at hget
                injection hget with hc
                subst hc
                rw [horc] at hm
                injection hm with hm0
                subst hm0
                rw [heqO]
                rfl
            | none =>
              have heqO : applyLoop oracle filter acolor bcolor abri bbri transition tc ts (e :: rest) =
                  ({ ctrl := e, host := e.host, port := cport, updates := ups, transition := transition } ::
                      (applyLoop oracle filter acolor bcolor abri bbri transition tc ts rest).1,
                    (applyLoop oracle filter acolor bcolor abri bbri transition tc ts rest).2) := by
                simp [applyLoop, hskip, hport, hseg, hbuild, horc]
              have hfail : callFails oracle { ctrl := e, host := e.host, port := cport, updates := ups, transition := transition } = false := by
                simp [callFails, horc]
              rw [heqO]
              constructor
              · intro hidx
                rw [List.findIdx?_cons, hfail] at hidx
                simp only [if_false, Bool.false_eq_true] at hidx
                rw [List.findIdx?_succ] at hidx
                rcases Option.map_eq_none'.mp hidx with hnone
                rcases ih h with ⟨ih1, _⟩
                rw [ih1 hnone]
              · intro i c m hidx hget hm
                rw [List.findIdx?_cons, hfail] at hidx
                simp only [if_false, Bool.false_eq_true] at hidx
                rw [List.findIdx?_succ] at hidx
                rcases Option.map_eq_some'.mp hidx with ⟨j, hj, hji⟩
                subst hji
                simp only [List.get?] at hget
                rcases ih h with ⟨_, ih2⟩
                rw [ih2 j c m hj hget hm]
                rfl

/-- C1 counterexample: in a three-controller configuration where the
second controller's `send_batch` call fails, the planner issues update
calls to the first and second controllers only — the third eligible
controller receives no update call (the full plan has three batches), so a
failure on one controller does prevent updates to the remaining ones, and
nothing is accumulated beyond the first failure. -/
theorem claim1_counterexample :
    (applySegmentsolid successOracle bndC1 cfgThree).1.map (fun c => c.host) =
      [some (Json.str "h1"), some (Json.str "h2"), some (Json.str "h3")] ∧
    (applySegmentsolid oracleFailH2 bndC1 cfgThree).1.map (fun c => c.host) =
      [some (Json.str "h1"), some (Json.str "h2")] ∧
    (applySegmentsolid oracleFailH2 bndC1 cfgThree).2 = Except.ok (some "WLED error on c2: boom") :=
  ⟨rfl, rfl, rfl⟩

/-- C1 amended: when the full plan would complete, the planner issues
update calls to the eligible controllers in inventory order only up to and
including the first one whose `send_batch` call fails; it stops there and
reports that single failure as `"WLED error on <cid>: <exc>"` (no update
calls are issued for later controllers, and no further failures are
accumulated).  The aggregate result reports failure if and only if some
issued call failed, and the reported failure is the first failing
controller's. -/
theorem claim1_amended (oracle : SendOracle) (binding : Json) (cfg : ConfigRaw)
    (hplan : (applySegmentsolid successOracle binding cfg).2 = Except.ok none) :
    ((planBatches binding cfg).findIdx? (callFails oracle) = none →
      applySegmentsolid oracle binding cfg = (planBatches binding cfg, Except.ok none)) ∧
    (∀ i c m, (planBatches binding cfg).findIdx? (callFails oracle) = some i →
      (planBatches binding cfg).get? i = some c →
      oracle c.host c.port c.updates c.transition = some m →
      applySegmentsolid oracle binding cfg =
        ((planBatches binding cfg).take (i + 1), Except.ok (some (wledFailMsg c m)))) := by
  cases hmode : findGameSelectMode cfg with
  | none => simp [applySegmentsolid, hmode] at hplan
  | some mode =>
    cases habr : pyIntOf (mode.abrightness.getD (Json.num 0)) with
    | error e1 => simp [applySegmentsolid, hmode, habr] at hplan
    | ok abri =>
      cases hbbr : pyIntOf (mode.bbrightness.getD (Json.num 0)) with
      | error e2 => simp [applySegmentsolid, hmode, habr, hbbr] at hplan
      | ok bbri =>
        cases binding with
        | obj bf =>
          cases htc : pyGet bf "controller" with
          | none => simp [applySegmentsolid, hmode, habr, hbbr, htc] at hplan
          | some tc =>
            cases hts : pyGet bf "segment" with
            | none => simp [applySegmentsolid, hmode, habr, hbbr, htc, hts] at hplan
            | some ts =>
              have hred : ∀ orc : SendOracle, applySegmentsolid orc (Json.obj bf) cfg =
                  applyLoop orc mode.controllers (mode.acolor.getD (Json.str "#000000"))
                    (mode.bcolor.getD (Json.str "#000000")) abri bbri
                    (match mode.transitionMs with
                      | some t => some t
                      | none => cfg.defaultTransitionMs) tc ts cfg.controllers := by
                intro orc
                simp [applySegmentsolid, hmode, habr, hbbr, htc, hts]
              rw [hred] at hplan
              have hmain := applyLoop_firstFail oracle mode.controllers
                (mode.acolor.getD (Json.str "#000000")) (mode.bcolor.getD (Json.str "#000000"))
                abri bbri
                (match mode.transitionMs with
                  | some t => some t
                  | none => cfg.defaultTransitionMs) tc ts cfg.controllers hplan
              unfold planBatches
              rw [hred, hred]
              exact hmain
        | null => simp [applySegmentsolid, hmode, habr, hbbr] at hplan
        | bool b => simp [applySegmentsolid, hmode, habr, hbbr] at hplan
        | num n => simp [applySegmentsolid, hmode, habr, hbbr] at hplan
        | str s2 => simp [applySegmentsolid, hmode, habr, hbbr] at hplan
        | arr xs => simp [applySegmentsolid, hmode, habr, hbbr] at hplan

/-- C1 witness: the amended theorem instantiated on the three-controller
fixture with the second controller failing. -/
theorem claim1_witness :
    applySegmentsolid oracleFailH2 bndC1 cfgThree =
      ((planBatches bndC1 cfgThree).take 2, Except.ok (some (wledFailMsg callC2 "boom"))) :=
  (claim1_amended oracleFailH2 bndC1 cfgThree rfl).2 1 callC2 "boom" rfl rfl rfl

theorem forall2_mem_right {α β : Type} {R : α → β → Prop} :
    ∀ {l1 : List α} {l2 : List β}, List.Forall₂ R l1 l2 → ∀ b ∈ l2, ∃ a ∈ l1, R a b := by
  intro l1 l2 h
  induction h with
  | nil => intro b hb; simp at hb
  | cons hab _ ih =>
    intro b hb
    rcases List.mem_cons.mp hb with hEq | hMem
    · subst hEq; exact ⟨_, List.mem_cons_self _ _, hab⟩
    · rcases ih b hMem with ⟨a, ha, hr⟩
      exact ⟨a, List.mem_cons_of_mem _ ha, hr⟩

theorem countP_of_forall2 {α β : Type} {R : α → β → Prop} (p : α → Bool) (q : β → Bool) :
    ∀ {l1 : List α} {l2 : List β}, List.Forall₂ R l1 l2 → (∀ a b, R a b → p a = q b) →
      l1.countP p = l2.countP q := by
  intro l1 l2 h hpq
  induction h with
  | nil => rfl
  | cons hab _ ih =>
    rw [List.countP_cons, List.countP_cons, ih, hpq _ _ hab]

theorem sumFilterMapZero {α : Type} (q : α → Bool) (g : α → Nat) :
    ∀ l : List α, (∀ x ∈ l, g x = 0) → ((l.filter q).map g).sum = 0 := by
  intro l
  induction l with
  | nil => intro _; rfl
  | cons x rest ih =>
    intro h0
    rw [List.filter_cons]
    by_cases hq : q x
    · simp only [hq, if_true]
      rw [List.map_cons, List.sum_cons, h0 x (List.mem_cons_self _ _),
        ih (fun y hy => h0 y (List.mem_cons_of_mem _ hy))]
    · simp only [hq, if_false]
      exact ih (fun y hy => h0 y (List.mem_cons_of_mem _ hy))

theorem sumFilterMapSingle {α : Type} (p q : α → Bool) (g : α → Nat) (e0 : α)
    (hg : ∀ x, p x = false → g x = 0) :
    ∀ l : List α, l.filter p = [e0] → ((l.filter q).map g).sum = if q e0 then g e0 else 0 := by
  intro l
  induction l with
  | nil => intro h; cases h
  | cons x rest ih =>
    intro hf
    rw [List.filter_cons] at hf
    cases px : p x with
    | true =>
      rw [px, if_pos rfl] at hf
      injection hf with hx hrest
      subst hx
      have h0 : ∀ y ∈ rest, g y = 0 := by
        intro y hy
        cases hpy : p y with
        | true => exact absurd hpy (List.filter_eq_nil_iff.mp hrest y hy)
        | false => exact hg y hpy
      rw [List.filter_cons]
      cases qx : q x with
      | true =>
        rw [if_pos rfl, List.map_cons, List.sum_cons, sumFilterMapZero q g rest h0, if_pos rfl, Nat.add_zero]
      | false =>
        rw [if_neg (by simp), sumFilterMapZero q g rest h0, if_neg (by simp)]
    | false =>
      rw [px] at hf
      simp only [Bool.false_eq_true, if_false] at hf
      have hgx : g x = 0 := hg x px
      rw [List.filter_cons]
      cases qx : q x with
      | true =>
        rw [if_pos rfl, List.map_cons, List.sum_cons, hgx, ih hf, Nat.zero_add]
      | false =>
        rw [if_neg (by simp)]
        exact ih hf

theorem buildUpdates_total (acolor bcolor : Json) (abri bbri : Int) (tc ts : Json)
    (argb brgb : Int × Int × Int)
    (hac : hexToRgbJ acolor = Except.ok argb) (hbc : hexToRgbJ bcolor = Except.ok brgb) :
    ∀ (cid : Option Json) (segs : List SegEntry),
      ∃ ups, buildUpdates acolor bcolor abri bbri tc ts cid segs = Except.ok ups := by
  intro cid segs
  induction segs with
  | nil => exact ⟨[], rfl⟩
  | cons seg rest ih =>
    rcases ih with ⟨ups, hups⟩
    cases hT : (pyEqOptJson cid tc && pyEqOptJson seg.id ts)
    · exact ⟨{ onFlag := decide (bbri > 0), brightness := bbri, color := brgb, segment := seg.id } :: ups,
        by simp only [buildUpdates, hT, Bool.false_eq_true, if_false, hbc, hups]⟩
    · exact ⟨{ onFlag := decide (abri > 0), brightness := abri, color := argb, segment := seg.id } :: ups,
        by simp only [buildUpdates, hT, if_true, hac, hups]⟩

theorem applyLoop_total (filter : List Json) (acolor bcolor : Json) (abri bbri : Int)
    (transition : Option Json) (tc ts : Json) (argb brgb : Int × Int × Int)
    (hac : hexToRgbJ acolor = Except.ok argb) (hbc : hexToRgbJ bcolor = Except.ok brgb) :
    ∀ ctrls : List CtrlEntry, (∀ e ∈ ctrls, ∃ p, pyIntOf (e.port.getD (Json.num 80)) = Except.ok p) →
      (applyLoop successOracle filter acolor bcolor abri bbri transition tc ts ctrls).2 = Except.ok none := by
  intro ctrls
  induction ctrls with
  | nil => intro _; rfl
  | cons e rest ih =>
    intro hports
    have ihr := ih (fun x hx => hports x (List.mem_cons_of_mem _ hx))
    by_cases hskip : (!filter.isEmpty && !memPy e.id filter) = true
    · simpa [applyLoop, hskip] using ihr
    · rcases hports e (List.mem_cons_self _ _) with ⟨p, hp⟩
      by_cases hseg : e.segments.isEmpty
      · simpa [applyLoop, hskip, hp, hseg] using ihr
      · rcases buildUpdates_total acolor bcolor abri bbri tc ts argb brgb hac hbc e.id e.segments with ⟨ups, hups⟩
        simpa [applyLoop, hskip, hp, hseg, hups, successOracle] using ihr

theorem applySegmentsolid_reduce (oracle : SendOracle) (cfg : ConfigRaw) (mode : ModeEntry)
    (abri bbri : Int) (bf : List (String × Json)) (tcv tsv : Json)
    (hmode : findGameSelectMode cfg = some mode)
    (habr : pyIntOf (mode.abrightness.getD (Json.num 0)) = Except.ok abri)
    (hbbr : pyIntOf (mode.bbrightness.getD (Json.num 0)) = Except.ok bbri)
    (htc : pyGet bf "controller" = some tcv)
    (hts : pyGet bf "segment" = some tsv) :
    applySegmentsolid oracle (Json.obj bf) cfg =
      applyLoop oracle mode.controllers (mode.acolor.getD (Json.str "#000000"))
        (mode.bcolor.getD (Json.str "#000000")) abri bbri
        (match mode.transitionMs with
          | some t => some t
          | none => cfg.defaultTransitionMs) tcv tsv cfg.controllers := by
  simp [applySegmentsolid, hmode, habr, hbbr, htc, hts]

theorem call_target_countP (tc : String) (ts : Int) (acolor bcolor : Json) (abri bbri : Int) (call : BatchCall)
    (hbuild : buildUpdates acolor bcolor abri bbri (Json.str tc) (Json.num ts) call.ctrl.id call.ctrl.segments = Except.ok call.updates) :
    call.updates.countP (fun u => updateIsTarget tc ts call u) =
      if pyEqOptJson call.ctrl.id (Json.str tc) then
        call.ctrl.segments.countP (fun s => pyEqOptJson s.id (Json.num ts))
      else 0 := by
  have hf2 := buildUpdates_forall2 acolor bcolor abri bbri (Json.str tc) (Json.num ts) call.ctrl.id
    call.ctrl.segments call.updates hbuild
  cases hcid : pyEqOptJson call.ctrl.id (Json.str tc) with
  | true =>
    rw [if_pos rfl]
    refine (countP_of_forall2 _ _ hf2 ?_).symm
    intro seg u hr
    rcases hr with ⟨hs, _, _⟩
    simp [updateIsTarget, hs, hcid]
  | false =>
    rw [if_neg (by simp)]
    rw [List.countP_eq_zero.mpr]
    intro u hu
    rcases forall2_mem_right hf2 u hu with ⟨seg, _, ⟨hs, _, _⟩⟩
    simp [updateIsTarget, hcid]

/-- C5: over a configuration whose controller ids are unique (the
controllers matching the bound id form exactly one entry) and whose
segment ids are unique per controller (the bound controller has exactly
one segment matching the bound segment id), the full plan gives the active
color and active brightness to exactly one segment update — the one
addressing the resolved binding pair — provided the bound controller
passes the allow-list; every other update of every eligible controller
gets the base color and base brightness.  If a non-empty allow-list
excludes the bound controller, zero updates carry the active styling (all
planned updates are base-styled). -/
theorem claim5_unique_active_segment
    (cfg : ConfigRaw) (mode : ModeEntry) (tc : String) (ts : Int) (e0 : CtrlEntry)
    (abri bbri : Int) (argb brgb : Int × Int × Int) (binding : Json)
    (hb : binding = Json.obj [("controller", Json.str tc), ("segment", Json.num ts)])
    (hmode : findGameSelectMode cfg = some mode)
    (habr : pyIntOf (mode.abrightness.getD (Json.num 0)) = Except.ok abri)
    (hbbr : pyIntOf (mode.bbrightness.getD (Json.num 0)) = Except.ok bbri)
    (hac : hexToRgbJ (mode.acolor.getD (Json.str "#000000")) = Except.ok argb)
    (hbc : hexToRgbJ (mode.bcolor.getD (Json.str "#000000")) = Except.ok brgb)
    (hports : ∀ e ∈ cfg.controllers, ∃ p, pyIntOf (e.port.getD (Json.num 80)) = Except.ok p)
    (he0 : cfg.controllers.filter (fun e => pyEqOptJson e.id (Json.str tc)) = [e0])
    (hseg1 : e0.segments.countP (fun s => pyEqOptJson s.id (Json.num ts)) = 1) :
    (∀ call ∈ planBatches binding cfg, ∀ u ∈ call.updates,
      (updateIsTarget tc ts call u = true → u.brightness = abri ∧ u.color = argb) ∧
      (updateIsTarget tc ts call u = false → u.brightness = bbri ∧ u.color = brgb)) ∧
    ((mode.controllers.isEmpty || memPy e0.id mode.controllers) = true →
      targetCount tc ts (planBatches binding cfg) = 1) ∧
    (mode.controllers.isEmpty = false → memPy e0.id mode.controllers = false →
      targetCount tc ts (planBatches binding cfg) = 0 ∧
      ∀ call ∈ planBatches binding cfg, ∀ u ∈ call.updates,
        u.brightness = bbri ∧ u.color = brgb) := by
  subst hb
  have htcv : pyGet [("controller", Json.str tc), ("segment", Json.num ts)] "controller" = some (Json.str tc) := rfl
  have htsv : pyGet [("controller", Json.str tc), ("segment", Json.num ts)] "segment" = some (Json.num ts) := rfl
  have hred := applySegmentsolid_reduce successOracle cfg mode abri bbri
    [("controller", Json.str tc), ("segment", Json.num ts)] (Json.str tc) (Json.num ts)
    hmode habr hbbr htcv htsv
  have hcalls : planBatches (Json.obj [("controller", Json.str tc), ("segment", Json.num ts)]) cfg =
      (applyLoop successOracle mode.controllers (mode.acolor.getD (Json.str "#000000"))
        (mode.bcolor.getD (Json.str "#000000")) abri bbri
        (match mode.transitionMs with
          | some t => some t
          | none => cfg.defaultTransitionMs) (Json.str tc) (Json.num ts) cfg.controllers).1 := by
    unfold planBatches
    rw [hred]
  have hplan2 : (applyLoop successOracle mode.controllers (mode.acolor.getD (Json.str "#000000"))
      (mode.bcolor.getD (Json.str "#000000")) abri bbri
      (match mode.transitionMs with
        | some t => some t
        | none => cfg.defaultTransitionMs) (Json.str tc) (Json.num ts) cfg.controllers).2 = Except.ok none :=
    applyLoop_total _ _ _ _ _ _ _ _ argb brgb hac hbc cfg.controllers hports
  have hmap := applyLoop_success_shape mode.controllers (mode.acolor.getD (Json.str "#000000"))
    (mode.bcolor.getD (Json.str "#000000")) abri bbri
    (match mode.transitionMs with
      | some t => some t
      | none => cfg.defaultTransitionMs) (Json.str tc) (Json.num ts) cfg.controllers hplan2
  have hshape := applyLoop_call_shape successOracle mode.controllers (mode.acolor.getD (Json.str "#000000"))
    (mode.bcolor.getD (Json.str "#000000")) abri bbri
    (match mode.transitionMs with
      | some t => some t
      | none => cfg.defaultTransitionMs) (Json.str tc) (Json.num ts) cfg.controllers
  -- the bound controller matches its own id predicate
  have he0p : pyEqOptJson e0.id (Json.str tc) = true := by
    have : e0 ∈ cfg.controllers.filter (fun e => pyEqOptJson e.id (Json.str tc)) := by
      rw [he0]; exact List.mem_cons_self _ _
    exact (List.mem_filter.mp this).2
  -- styling of every planned update
  have hstyle : ∀ call ∈ planBatches (Json.obj [("controller", Json.str tc), ("segment", Json.num ts)]) cfg,
      ∀ u ∈ call.updates,
      (updateIsTarget tc ts call u = true → u.brightness = abri ∧ u.color = argb) ∧
      (updateIsTarget tc ts call u = false → u.brightness = bbri ∧ u.color = brgb) := by
    intro call hcall u hu
    rw [hcalls] at hcall
    rcases hshape call hcall with ⟨_, _, hbuild, _⟩
    have hf2 := buildUpdates_forall2 _ _ abri bbri (Json.str tc) (Json.num ts) call.ctrl.id
      call.ctrl.segments call.updates hbuild
    rcases forall2_mem_right hf2 u hu with ⟨seg, _, ⟨hs, hA, hB⟩⟩
    have hshift : updateIsTarget tc ts call u =
        (pyEqOptJson call.ctrl.id (Json.str tc) && pyEqOptJson seg.id (Json.num ts)) := by
      simp [updateIsTarget, hs]
    constructor
    · intro hT
      rw [hshift] at hT
      rcases hA hT with ⟨hbri, hcol⟩
      rw [hac] at hcol
      injection hcol with hcol
      exact ⟨hbri, hcol.symm⟩
    · intro hT
      rw [hshift] at hT
      rcases hB hT with ⟨hbri, hcol⟩
      rw [hbc] at hcol
      injection hcol with hcol
      exact ⟨hbri, hcol.symm⟩
  -- the total count across batches as a function of the bound controller
  have hcount : targetCount tc ts (planBatches (Json.obj [("controller", Json.str tc), ("segment", Json.num ts)]) cfg) =
      if ctrlEligible mode.controllers e0 then
        (if pyEqOptJson e0.id (Json.str tc) then e0.segments.countP (fun s => pyEqOptJson s.id (Json.num ts)) else 0)
      else 0 := by
    rw [targetCount, hcalls]
    rw [List.map_congr_left (fun call hcall => by
      rcases hshape call hcall with ⟨_, _, hbuild, _⟩
      exact call_target_countP tc ts _ _ abri bbri call hbuild)]
    rw [show (fun (call : BatchCall) =>
        if pyEqOptJson call.ctrl.id (Json.str tc) then
          call.ctrl.segments.countP (fun s => pyEqOptJson s.id (Json.num ts))
        else 0) = (fun (x : CtrlEntry) =>
        if pyEqOptJson x.id (Json.str tc) then
          x.segments.countP (fun s => pyEqOptJson s.id (Json.num ts))
        else 0) ∘ (fun (call : BatchCall) => call.ctrl) from rfl]
    rw [← List.map_map, hmap]
    exact sumFilterMapSingle (fun e => pyEqOptJson e.id (Json.str tc)) (ctrlEligible mode.controllers)
      _ e0 (fun x hx => by
        have hx2 : pyEqOptJson x.id (Json.str tc) = false := hx
        show (if pyEqOptJson x.id (Json.str tc) then
            x.segments.countP (fun s => pyEqOptJson s.id (Json.num ts)) else 0) = 0
        rw [hx2]
        simp) cfg.controllers he0
  have hnonempty : e0.segments.isEmpty = false := by
    cases hse : e0.segments with
    | nil => rw [hse] at hseg1; cases hseg1
    | cons a l => rfl
  refine ⟨hstyle, ?_, ?_⟩
  · intro hallow
    rw [hcount, if_pos (by simp [ctrlEligible, hallow, hnonempty]), if_pos he0p]
    exact hseg1
  · intro hne hmem
    have helig0 : ctrlEligible mode.controllers e0 = false := by
      simp [ctrlEligible, hne, hmem]
    have hzero : targetCount tc ts (planBatches (Json.obj [("controller", Json.str tc), ("segment", Json.num ts)]) cfg) = 0 := by
      rw [hcount, if_neg (by simp [helig0])]
    refine ⟨hzero, ?_⟩
    intro call hcall u hu
    have hcid : pyEqOptJson call.ctrl.id (Json.str tc) = false := by
      cases hc : pyEqOptJson call.ctrl.id (Json.str tc) with
      | false => rfl
      | true =>
        have hmemctrl : call.ctrl ∈ cfg.controllers.filter (ctrlEligible mode.controllers) := by
          rw [← hmap]
          exact List.mem_map_of_mem _ (hcalls ▸ hcall)
        rcases List.mem_filter.mp hmemctrl with ⟨hmem2, helig2⟩
        have : call.ctrl ∈ cfg.controllers.filter (fun e => pyEqOptJson e.id (Json.str tc)) :=
          List.mem_filter.mpr ⟨hmem2, hc⟩
        rw [he0] at this
        rcases List.mem_singleton.mp this with hEq
        rw [hEq] at helig2
        rw [helig0] at helig2
        cases helig2
    have hT : updateIsTarget tc ts call u = false := by
      simp [updateIsTarget, hcid]
    exact (hstyle call hcall u hu).2 hT

/-- C5 witness: in the end-to-end fixture, exactly one planned update
carries the binding pair, and the amended/stated styling holds for the
active update. -/
theorem claim5_witness :
    targetCount "livingroom" 2 (planBatches bndLiving cfgLiving) = 1 :=
  (claim5_unique_active_segment cfgLiving modeLiving "livingroom" 2
      (ctrlC "livingroom" "10.0.0.5" [0, 1, 2]) 255 0 (255, 0, 0) (0, 0, 0) bndLiving
      rfl rfl rfl rfl rfl rfl
      (by
        intro e he
        rcases List.mem_singleton.mp he with h
        subst h
        exact ⟨80, rfl⟩)
      rfl rfl).2.1 rfl

/-- C7 counterexample: the message `5` is valid JSON, so the claim's
cascade requires the distinct error response `unsupported_type` (its
`type` field is not `"console"`), but the server crashes uncaught in
`message.get` instead and produces no error response. -/
theorem claim7_counterexample :
    dispatchParsed successOracle (Except.error "cfg") (some (Json.num 5)) =
      ConnOutcome.crashed (pySq ++ "int" ++ pySq ++ " object has no attribute " ++ pySq ++ "get" ++ pySq) ∧
    dispatchParsed successOracle (Except.error "cfg") (some (Json.num 5)) ≠
      ConnOutcome.resp (Response.err "unsupported_type") :=
  ⟨rfl, fun h => by cases h⟩

/-- C7 amended: for every received message that parses to a JSON object,
the dispatch rules are checked in the claimed fixed order — malformed
JSON → `invalid_json`; `type` not `"console"` → `unsupported_type`;
missing/falsy `name` → `missing_name`; configuration load failure → its
message verbatim; binding not found → `console '<name>' not found`;
planner-reported failure → its message verbatim; and a response
`{status: "ok", binding, console}` is produced exactly when all checks
pass.  A message parsing to valid non-object JSON instead raises an
uncaught `AttributeError` and produces no response. -/
theorem claim7_dispatch_cascade (oracle : SendOracle) (cfgLoad : Except String ConfigRaw) (parsed : Option Json) :
    (parsed = none → dispatchParsed oracle cfgLoad parsed = ConnOutcome.resp (Response.err "invalid_json")) ∧
    (∀ fields, parsed = some (Json.obj fields) →
      pyEqOptJson (pyGet fields "type") (Json.str "console") = false →
      dispatchParsed oracle cfgLoad parsed = ConnOutcome.resp (Response.err "unsupported_type")) ∧
    (∀ fields, parsed = some (Json.obj fields) →
      pyEqOptJson (pyGet fields "type") (Json.str "console") = true →
      pyFalsyOpt (pyGet fields "name") = true →
      dispatchParsed oracle cfgLoad parsed = ConnOutcome.resp (Response.err "missing_name")) ∧
    (∀ fields e, parsed = some (Json.obj fields) →
      pyEqOptJson (pyGet fields "type") (Json.str "console") = true →
      pyFalsyOpt (pyGet fields "name") = false →
      cfgLoad = Except.error e →
      dispatchParsed oracle cfgLoad parsed = ConnOutcome.resp (Response.err e)) ∧
    (∀ fields cfg nv, parsed = some (Json.obj fields) →
      pyEqOptJson (pyGet fields "type") (Json.str "console") = true →
      pyFalsyOpt (pyGet fields "name") = false →
      cfgLoad = Except.ok cfg →
      pyGet fields "name" = some nv →
      findEsdeBinding cfg nv = Except.ok none →
      dispatchParsed oracle cfgLoad parsed =
        ConnOutcome.resp (Response.err ("console " ++ pySq ++ pyStr nv ++ pySq ++ " not found"))) ∧
    (∀ fields cfg nv b e2, parsed = some (Json.obj fields) →
      pyEqOptJson (pyGet fields "type") (Json.str "console") = true →
      pyFalsyOpt (pyGet fields "name") = false →
      cfgLoad = Except.ok cfg →
      pyGet fields "name" = some nv →
      findEsdeBinding cfg nv = Except.ok (some b) →
      (applySegmentsolid oracle b cfg).2 = Except.ok (some e2) →
      dispatchParsed oracle cfgLoad parsed = ConnOutcome.resp (Response.err e2)) ∧
    (∀ fields cfg nv b, parsed = some (Json.obj fields) →
      pyEqOptJson (pyGet fields "type") (Json.str "console") = true →
      pyFalsyOpt (pyGet fields "name") = false →
      cfgLoad = Except.ok cfg →
      pyGet fields "name" = some nv →
      findEsdeBinding cfg nv = Except.ok (some b) →
      (applySegmentsolid oracle b cfg).2 = Except.ok none →
      dispatchParsed oracle cfgLoad parsed = ConnOutcome.resp (Response.ok b nv)) ∧
    (∀ v, parsed = some v → (∀ fields, v ≠ Json.obj fields) →
      dispatchParsed oracle cfgLoad parsed =
        ConnOutcome.crashed (pySq ++ pyTypeName v ++ pySq ++ " object has no attribute " ++ pySq ++ "get" ++ pySq)) ∧
    (∀ b nv, dispatchParsed oracle cfgLoad parsed = ConnOutcome.resp (Response.ok b nv) →
      ∃ fields cfg, parsed = some (Json.obj fields) ∧
        pyEqOptJson (pyGet fields "type") (Json.str "console") = true ∧
        pyFalsyOpt (pyGet fields "name") = false ∧
        pyGet fields "name" = some nv ∧
        cfgLoad = Except.ok cfg ∧
        findEsdeBinding cfg nv = Except.ok (some b) ∧
        (applySegmentsolid oracle b cfg).2 = Except.ok none) := by
  refine ⟨?_, ?_, ?_, ?_, ?_, ?_, ?_, ?_, ?_⟩
  · intro h; subst h; rfl
  · intro fields h htype
    subst h
    simp [dispatchParsed, htype]
  · intro fields h htype hname
    subst h
    simp [dispatchParsed, htype, hname]
  · intro fields e h htype hname hcfg
    subst h; subst hcfg
    simp [dispatchParsed, htype, hname]
  · intro fields cfg nv h htype hname hcfg hnv hfind
    subst h; subst hcfg
    rw [hnv] at hname
    simp [dispatchParsed, htype, hname, hnv, hfind]
  · intro fields cfg nv b e2 h htype hname hcfg hnv hfind happ
    subst h; subst hcfg
    rw [hnv] at hname
    simp [dispatchParsed, htype, hname, hnv, hfind, happ]
  · intro fields cfg nv b h htype hname hcfg hnv hfind happ
    subst h; subst hcfg
    rw [hnv] at hname
    simp [dispatchParsed, htype, hname, hnv, hfind, happ]
  · intro v h hno
    subst h
    cases v with
    | obj fields => exact absurd rfl (hno fields)
    | null => rfl
    | bool b => rfl
    | num n => rfl
    | str s => rfl
    | arr xs => rfl
  · intro b nv h
    cases parsed with
    | none => cases h
    | some v =>
      cases v with
      | obj fields =>
        simp only [dispatchParsed] at h
        split at h
        · cases h
        · rename_i htypeNe
          split at h
          · cases h
          · rename_i hnameNe
            have htype : pyEqOptJson (pyGet fields "type") (Json.str "console") = true := by
              simpa using htypeNe
            have hname : pyFalsyOpt (pyGet fields "name") = false := by
              simpa using hnameNe
            cases hnv : pyGet fields "name" with
            | none => rw [hnv] at hname; cases hname
            | some nv2 =>
              rw [hnv] at h
              simp only [Option.getD_some] at h
              split at h
              · cases h
              · rename_i cfg
                split at h
                · cases h
                · cases h
                · rename_i b2 hfind
                  split at h
                  · cases h
                  · cases h
                  · rename_i happ
                    injection h with h2
                    injection h2 with hb hnveq
                    subst hb
                    subst hnveq
                    exact ⟨fields, cfg, rfl, htype, hname, hnv, rfl, hfind, happ⟩
      | null => cases h
      | bool b2 => cases h
      | num n => cases h
      | str s => cases h
      | arr xs => cases h

/-- C7 witness: three rules of the cascade instantiated — malformed JSON,
a request without a name, and the fully successful `snes` request of the
end-to-end fixture. -/
theorem claim7_witness :
    dispatchParsed successOracle (Except.ok cfgLiving) none = ConnOutcome.resp (Response.err "invalid_json") ∧
    dispatchParsed successOracle (Except.ok cfgLiving) (some msgNoName) = ConnOutcome.resp (Response.err "missing_name") ∧
    dispatchParsed successOracle (Except.ok cfgLiving) (some msgSnes) = ConnOutcome.resp (Response.ok bndLiving (Json.str "snes")) :=
  ⟨(claim7_dispatch_cascade successOracle (Except.ok cfgLiving) none).1 rfl,
   (claim7_dispatch_cascade successOracle (Except.ok cfgLiving) (some msgNoName)).2.2.1
     [("type", Json.str "console")] rfl rfl rfl,
   (claim7_dispatch_cascade successOracle (Except.ok cfgLiving) (some msgSnes)).2.2.2.2.2.2.1
     [("type", Json.str "console"), ("name", Json.str "snes")] cfgLiving (Json.str "snes") bndLiving
     rfl rfl rfl rfl rfl rfl rfl⟩

/-- C3: the claim holds for four of the five error classes, but an
invalid styling color value refutes it — with `acolor = "#12345"` the
planner raises `ValueError("Invalid hex color: 12345")` from
`_hex_to_rgb`, nothing catches it in `serve`, no response is written and
the serve loop terminates: a second identical connection in the same
session is never served.  (Contrast `dispatchParsed`'s handling of
brightness, configuration, resolution and controller errors, which do
produce error responses.) -/
theorem claim3_color_crash :
    dispatchParsed successOracle (Except.ok cfgBadColor) (some msgSnes) =
      ConnOutcome.crashed "Invalid hex color: 12345" ∧
    serveSession (Except.ok cfgBadColor) [(reqSnes, successOracle), (reqSnes, successOracle)] =
      [ConnOutcome.crashed "Invalid hex color: 12345"] :=
  ⟨rfl, rfl⟩

theorem serveSession_getQ (cfgLoad : Except String ConfigRaw) :
    ∀ (conns : List (String × SendOracle)) (k : Nat), k < (serveSession cfgLoad conns).length →
      (serveSession cfgLoad conns).get? k = (conns.get? k).map (fun rc => serveConnRaw rc.2 cfgLoad rc.1) := by
  intro conns
  induction conns with
  | nil => intro k hk; cases hk
  | cons rc rest ih =>
    intro k hk
    rcases rc with ⟨raw, oracle⟩
    cases houtcome : serveConnRaw oracle cfgLoad raw with
    | crashed m =>
      simp only [serveSession, houtcome] at hk ⊢
      cases k with
      | zero => simp [houtcome]
      | succ k2 => simp at hk
    | noResponse =>
      simp only [serveSession, houtcome] at hk ⊢
      cases k with
      | zero => simp [houtcome]
      | succ k2 =>
        simp only [List.get?] at hk ⊢
        exact ih k2 (by simpa using hk)
    | resp r =>
      simp only [serveSession, houtcome] at hk ⊢
      cases k with
      | zero => simp [houtcome]
      | succ k2 =>
        simp only [List.get?] at hk ⊢
        exact ih k2 (by simpa using hk)

/-- C8 amended: the server's response is a deterministic function of the
request message, the configuration contents and the per-request
controller-apply outcomes — not of request and configuration alone.  Two
connections of one session that carry the same raw request and the same
controller-client behaviour yield the same outcome and byte-identical
rendered payloads. -/
theorem claim8_amended (cfgLoad : Except String ConfigRaw) (conns : List (String × SendOracle)) (i j : Nat)
    (hi : i < (serveSession cfgLoad conns).length) (hj : j < (serveSession cfgLoad conns).length)
    (hij : conns.get? i = conns.get? j) :
    (serveSession cfgLoad conns).get? i = (serveSession cfgLoad conns).get? j ∧
    ((serveSession cfgLoad conns).get? i).map renderOutcome =
      ((serveSession cfgLoad conns).get? j).map renderOutcome := by
  have h1 := serveSession_getQ cfgLoad conns i hi
  have h2 := serveSession_getQ cfgLoad conns j hj
  refine ⟨?_, ?_⟩
  · rw [h1, h2, hij]
  · rw [h1, h2, hij]

/-- C8 counterexample: the same `snes` request against the same
configuration, processed twice, yields two different response payloads
when the controller client fails during the first request and succeeds
during the second — so the response is not a function of request and
configuration alone. -/
theorem claim8_counterexample :
    serveSession (Except.ok cfgThree) [(reqSnes, oracleFailAll), (reqSnes, successOracle)] =
      [ConnOutcome.resp (Response.err "WLED error on c1: boom"),
       ConnOutcome.resp (Response.ok bndC1 (Json.str "snes"))] ∧
    renderOutcome (ConnOutcome.resp (Response.err "WLED error on c1: boom")) ≠
      renderOutcome (ConnOutcome.resp (Response.ok bndC1 (Json.str "snes"))) :=
  ⟨rfl, by decide⟩

/-- C8 witness: with an unchanged controller client, the two identical
requests of a session produce identical outcomes and identical bytes. -/
theorem claim8_witness :
    (serveSession (Except.ok cfgThree) [(reqSnes, successOracle), (reqSnes, successOracle)]).get? 0 =
      (serveSession (Except.ok cfgThree) [(reqSnes, successOracle), (reqSnes, successOracle)]).get? 1 ∧
    ((serveSession (Except.ok cfgThree) [(reqSnes, successOracle), (reqSnes, successOracle)]).get? 0).map renderOutcome =
      ((serveSession (Except.ok cfgThree) [(reqSnes, successOracle), (reqSnes, successOracle)]).get? 1).map renderOutcome :=
  claim8_amended (Except.ok cfgThree) [(reqSnes, successOracle), (reqSnes, successOracle)] 0 1
    (by decide) (by decide) rfl

/-- C9 counterexample: the peer sends the single byte `{` and closes
before any newline.  The partial read is not discarded: `serve` parses it
and attempts to write an `invalid_json` error response, instead of closing
the connection without a response as the claim states. -/
theorem claim9_counterexample :
    readMessage [ReadEvent.data (String.singleton lbraceChar), ReadEvent.closed] = String.singleton lbraceChar ∧
    serveConn successOracle (Except.ok cfgThree) [ReadEvent.data (String.singleton lbraceChar), ReadEvent.closed] =
      ConnOutcome.resp (Response.err "invalid_json") :=
  ⟨rfl, rfl⟩

/-- C9 amended: `_read_message` accumulates chunks until one contains a
newline or the peer closes (first two conjuncts).  An empty read is
discarded and the connection is closed with no response (third conjunct);
but a non-empty partial read obtained when the peer closes before a
newline is not discarded — it is parsed and dispatched exactly like a
complete message (fourth conjunct). -/
theorem claim9_framing (oracle : SendOracle) (cfgLoad : Except String ConfigRaw) :
    (∀ (pre : List String) (c : String) (rest : List ReadEvent),
      (∀ s ∈ pre, s ≠ "" ∧ s.toList.contains (Char.ofNat 10) = false) →
      c ≠ "" → c.toList.contains (Char.ofNat 10) = true →
      readMessage (pre.map ReadEvent.data ++ ReadEvent.data c :: rest) =
        pre.foldr (fun s acc => s ++ acc) "" ++ c) ∧
    (∀ (pre : List String) (rest : List ReadEvent),
      (∀ s ∈ pre, s ≠ "" ∧ s.toList.contains (Char.ofNat 10) = false) →
      readMessage (pre.map ReadEvent.data ++ ReadEvent.closed :: rest) =
        pre.foldr (fun s acc => s ++ acc) "") ∧
    (∀ evs, readMessage evs = "" → serveConn oracle cfgLoad evs = ConnOutcome.noResponse) ∧
    (∀ evs, readMessage evs ≠ "" →
      serveConn oracle cfgLoad evs = dispatchParsed oracle cfgLoad (pyJsonLoads (readMessage evs))) := by
  refine ⟨?_, ?_, ?_, ?_⟩
  · intro pre
    induction pre with
    | nil =>
      intro c rest _ hc hnl
      simp only [List.map_nil, List.nil_append, List.foldr_nil, readMessage]
      rw [if_neg hc, if_pos hnl]
      rfl
    | cons s pre2 ih =>
      intro c rest hpre hc hnl
      rcases hpre s (List.mem_cons_self _ _) with ⟨hs, hsnl⟩
      simp only [List.map_cons, List.cons_append, readMessage, List.foldr_cons, List.append_eq]
      rw [if_neg hs, hsnl]
      simp only [Bool.false_eq_true, if_false]
      rw [ih c rest (fun x hx => hpre x (List.mem_cons_of_mem _ hx)) hc hnl,
        String.append_assoc]
  · intro pre
    induction pre with
    | nil => intro rest _; rfl
    | cons s pre2 ih =>
      intro rest hpre
      rcases hpre s (List.mem_cons_self _ _) with ⟨hs, hsnl⟩
      simp only [List.map_cons, List.cons_append, readMessage, List.foldr_cons, List.append_eq]
      rw [if_neg hs, hsnl]
      simp only [Bool.false_eq_true, if_false]
      rw [ih rest (fun x hx => hpre x (List.mem_cons_of_mem _ hx))]
  · intro evs hempty
    simp [serveConn, serveConnRaw, hempty]
  · intro evs hnonempty
    simp [serveConn, serveConnRaw, hnonempty]

/-- C9 witness: two newline-free chunks followed by a newline chunk
accumulate to their concatenation, and an immediately closed connection
yields no response. -/
theorem claim9_witness :
    readMessage [ReadEvent.data "ab", ReadEvent.data ("c" ++ nlStr), ReadEvent.closed] =
      ["ab"].foldr (fun s acc => s ++ acc) "" ++ ("c" ++ nlStr) ∧
    serveConn successOracle (Except.ok cfgThree) [ReadEvent.closed] = ConnOutcome.noResponse :=
  ⟨(claim9_framing successOracle (Except.ok cfgThree)).1 ["ab"] ("c" ++ nlStr) [ReadEvent.closed]
      (fun s hs => by
        rcases List.mem_singleton.mp hs with h
        subst h
        exact ⟨by decide, rfl⟩)
      (by decide) rfl,
   (claim9_framing successOracle (Except.ok cfgThree)).2.2.1 [ReadEvent.closed] rfl⟩

/-- C2 counterexample: the server answers with a well-formed
`status = "error"` response, yet the client outcome is 0 — `handle_console`
never examines the response it receives, so a server-reported error is not
mapped to a non-zero outcome. -/
theorem claim2_counterexample :
    pyJsonLoads (pyStripWs (respErrBoom ++ nlStr)) =
      some (Json.obj [("status", Json.str "error"), ("error", Json.str "boom")]) ∧
    handleConsole (Except.ok cfgThree) "snes" (PipeWorld.responds (respErrBoom ++ nlStr)) = Except.ok 0 :=
  ⟨rfl, rfl⟩

/-- C2 amended: once the console name resolves locally, the client maps
an absent endpoint, an open error, a read/write error and a response that
is not valid JSON all to the single `IPCNotReady` outcome with exit code
4 (they differ only in the exception message); any response that parses as
JSON — whatever its `status`, including `"error"` — yields exit code 0,
because the client ignores the response content.  A client-side
configuration load failure exits 2 before any IPC. -/
theorem claim2_client_outcomes (cfg : ConfigRaw) (name : String) (b : Json)
    (hfind : findEsdeBinding cfg (Json.str name) = Except.ok (some b)) :
    (handleConsole (Except.ok cfg) name PipeWorld.absent = Except.ok 4) ∧
    (∀ m, handleConsole (Except.ok cfg) name (PipeWorld.openError m) = Except.ok 4) ∧
    (∀ m, handleConsole (Except.ok cfg) name (PipeWorld.ioError m) = Except.ok 4) ∧
    (∀ data, pyJsonLoads (pyStripWs data) = none →
      handleConsole (Except.ok cfg) name (PipeWorld.responds data) = Except.ok 4) ∧
    (∀ data j, pyJsonLoads (pyStripWs data) = some j →
      handleConsole (Except.ok cfg) name (PipeWorld.responds data) = Except.ok 0) ∧
    (∀ w e, handleConsole (Except.error e) name w = Except.ok 2) := by
  refine ⟨?_, ?_, ?_, ?_, ?_, ?_⟩
  · simp [handleConsole, hfind, sendConsoleRequest]
  · intro m; simp [handleConsole, hfind, sendConsoleRequest]
  · intro m; simp [handleConsole, hfind, sendConsoleRequest]
  · intro data hparse; simp [handleConsole, hfind, sendConsoleRequest, hparse]
  · intro data j hparse; simp [handleConsole, hfind, sendConsoleRequest, hparse]
  · intro w e; simp [handleConsole]

/-- C2 witness: with the `snes` binding resolvable, the endpoint being
absent and the server returning garbage both exit 4, while even a bare
`null` response exits 0. -/
theorem claim2_witness :
    handleConsole (Except.ok cfgThree) "snes" PipeWorld.absent = Except.ok 4 ∧
    handleConsole (Except.ok cfgThree) "snes" (PipeWorld.responds "garbage") = Except.ok 4 ∧
    handleConsole (Except.ok cfgThree) "snes" (PipeWorld.responds "null") = Except.ok 0 :=
  ⟨(claim2_client_outcomes cfgThree "snes" bndC1 rfl).1,
   (claim2_client_outcomes cfgThree "snes" bndC1 rfl).2.2.2.1 "garbage" rfl,
   (claim2_client_outcomes cfgThree "snes" bndC1 rfl).2.2.2.2.1 "null" Json.null rfl⟩
